import Mathlib

/-!
Verification development for the `sentinel` repository.

The GPU shaders (the field-simulation shader embedded in
`src/tools/mock-observer.ts`, `src/renderer/src/shaders/render.wgsl` and
`src/renderer/src/shaders/entity.wgsl`) are shallowly embedded over an
arbitrary linear ordered field `α` (idealised, exact arithmetic in place of
`f32`).  The WGSL intrinsics whose accuracy is implementation-defined
(`sin`, `cos`, `exp`, `pow`, `sqrt`) are supplied through a `GpuOps` record, so a
theorem quantified over `ops` holds for every implementation of those
intrinsics, and concrete evaluations instantiate them explicitly.
Textures are modelled as dimensions plus a texel-lookup function, and a
fragment invocation is modelled by its integer pixel coordinate.

The observer process (`src/observer/src/state.ts`, `src/observer/src/vlm.ts`)
is embedded directly: its state machine as a pure step function on an
explicit machine-state record, and `analyzeScreen` as a total function on a
datatype of the possible transport/HTTP/JSON outcomes, with the two
platform builtins `JSON.parse` and `Number(string)` taken as parameters.
-/

set_option maxRecDepth 4000

set_option maxHeartbeats 2000000

/-! ## Small vector algebra (WGSL `vec2/vec3/vec4`) -/

structure Vec2 (α : Type) where
  x : α
  y : α
deriving DecidableEq

structure Vec3 (α : Type) where
  x : α
  y : α
  z : α
deriving DecidableEq

structure Vec4 (α : Type) where
  x : α
  y : α
  z : α
  w : α
deriving DecidableEq

variable {α : Type}

instance [Add α] : Add (Vec2 α) := ⟨fun a b => ⟨a.x + b.x, a.y + b.y⟩⟩

instance [Sub α] : Sub (Vec2 α) := ⟨fun a b => ⟨a.x - b.x, a.y - b.y⟩⟩

instance [Mul α] : Mul (Vec2 α) := ⟨fun a b => ⟨a.x * b.x, a.y * b.y⟩⟩

instance [Mul α] : HMul (Vec2 α) α (Vec2 α) := ⟨fun v s => ⟨v.x * s, v.y * s⟩⟩

instance [Div α] : HDiv (Vec2 α) α (Vec2 α) := ⟨fun v s => ⟨v.x / s, v.y / s⟩⟩

instance [Add α] : Add (Vec3 α) := ⟨fun a b => ⟨a.x + b.x, a.y + b.y, a.z + b.z⟩⟩

instance [Sub α] : Sub (Vec3 α) := ⟨fun a b => ⟨a.x - b.x, a.y - b.y, a.z - b.z⟩⟩

instance [Neg α] : Neg (Vec3 α) := ⟨fun a => ⟨-a.x, -a.y, -a.z⟩⟩

instance [Mul α] : Mul (Vec3 α) := ⟨fun a b => ⟨a.x * b.x, a.y * b.y, a.z * b.z⟩⟩

instance [Mul α] : HMul (Vec3 α) α (Vec3 α) := ⟨fun v s => ⟨v.x * s, v.y * s, v.z * s⟩⟩

instance [Mul α] : HMul α (Vec3 α) (Vec3 α) := ⟨fun s v => ⟨s * v.x, s * v.y, s * v.z⟩⟩

instance [Div α] : HDiv (Vec3 α) α (Vec3 α) := ⟨fun v s => ⟨v.x / s, v.y / s, v.z / s⟩⟩

@[simp] theorem v2add_def [Add α] (a b : Vec2 α) :
    a + b = ⟨a.x + b.x, a.y + b.y⟩ := rfl

@[simp] theorem v2sub_def [Sub α] (a b : Vec2 α) :
    a - b = ⟨a.x - b.x, a.y - b.y⟩ := rfl

@[simp] theorem v2mul_def [Mul α] (a b : Vec2 α) :
    a * b = ⟨a.x * b.x, a.y * b.y⟩ := rfl

@[simp] theorem v2smul_def [Mul α] (v : Vec2 α) (s : α) :
    v * s = ⟨v.x * s, v.y * s⟩ := rfl

@[simp] theorem v2div_def [Div α] (v : Vec2 α) (s : α) :
    v / s = ⟨v.x / s, v.y / s⟩ := rfl

@[simp] theorem v3add_def [Add α] (a b : Vec3 α) :
    a + b = ⟨a.x + b.x, a.y + b.y, a.z + b.z⟩ := rfl

@[simp] theorem v3sub_def [Sub α] (a b : Vec3 α) :
    a - b = ⟨a.x - b.x, a.y - b.y, a.z - b.z⟩ := rfl

@[simp] theorem v3neg_def [Neg α] (a : Vec3 α) : -a = ⟨-a.x, -a.y, -a.z⟩ := rfl

@[simp] theorem v3mul_def [Mul α] (a b : Vec3 α) :
    a * b = ⟨a.x * b.x, a.y * b.y, a.z * b.z⟩ := rfl

@[simp] theorem v3smul_def [Mul α] (v : Vec3 α) (s : α) :
    v * s = ⟨v.x * s, v.y * s, v.z * s⟩ := rfl

@[simp] theorem v3smul_left_def [Mul α] (s : α) (v : Vec3 α) :
    s * v = ⟨s * v.x, s * v.y, s * v.z⟩ := rfl

@[simp] theorem v3div_def [Div α] (v : Vec3 α) (s : α) :
    v / s = ⟨v.x / s, v.y / s, v.z / s⟩ := rfl

def Vec3.splat (s : α) : Vec3 α := ⟨s, s, s⟩

def Vec4.xyz (v : Vec4 α) : Vec3 α := ⟨v.x, v.y, v.z⟩

def Vec4.ofV3 (v : Vec3 α) (w : α) : Vec4 α := ⟨v.x, v.y, v.z, w⟩

def dot2 [Mul α] [Add α] (a b : Vec2 α) : α := a.x * b.x + a.y * b.y

def dot3 [Mul α] [Add α] (a b : Vec3 α) : α := a.x * b.x + a.y * b.y + a.z * b.z

/-! ## WGSL built-in functions, over an ordered field -/

variable [LinearOrderedField α] [FloorRing α]

/-- WGSL `fract(x) = x - floor(x)`. -/
def fract (x : α) : α := x - ⌊x⌋

def fract3 (v : Vec3 α) : Vec3 α := ⟨fract v.x, fract v.y, fract v.z⟩

/-- WGSL componentwise `floor` on `vec3`. -/
def floor3 (v : Vec3 α) : Vec3 α := ⟨(⌊v.x⌋ : ℤ), (⌊v.y⌋ : ℤ), (⌊v.z⌋ : ℤ)⟩

/-- WGSL `mix(x, y, a) = x * (1 - a) + y * a`. -/
def mixf (x y a : α) : α := x * (1 - a) + y * a

def mix3 (u v : Vec3 α) (a : α) : Vec3 α := ⟨mixf u.x v.x a, mixf u.y v.y a, mixf u.z v.z a⟩

def mix4 (u v : Vec4 α) (a : α) : Vec4 α :=
  ⟨mixf u.x v.x a, mixf u.y v.y a, mixf u.z v.z a, mixf u.w v.w a⟩

/-- WGSL `step(edge, x)`: `1` if `edge ≤ x`, else `0`. -/
def wstep (edge x : α) : α := if x < edge then 0 else 1

/-- WGSL `clamp` on scalars. -/
def clampf (x lo hi : α) : α := min (max x lo) hi

def clamp3 (v lo hi : Vec3 α) : Vec3 α :=
  ⟨clampf v.x lo.x hi.x, clampf v.y lo.y hi.y, clampf v.z lo.z hi.z⟩

/-- WGSL `smoothstep`. -/
def smoothstepf (e0 e1 x : α) : α :=
  let t := clampf ((x - e0) / (e1 - e0)) 0 1
  t * t * (3 - 2 * t)

/-- The WGSL intrinsics whose accuracy WGSL leaves implementation-defined.
An embedded shader takes these as a parameter; theorems quantified over
`GpuOps` hold for every implementation of the intrinsics. -/
structure GpuOps (α : Type) where
  sin : α → α
  cos : α → α
  exp : α → α
  pow : α → α → α
  sqrt : α → α

/-- WGSL `length` on `vec3`: `sqrt(dot(v, v))`. -/
def length3 (ops : GpuOps α) (v : Vec3 α) : α := ops.sqrt (dot3 v v)

/-- WGSL `length` on `vec2`. -/
def length2 (ops : GpuOps α) (v : Vec2 α) : α := ops.sqrt (dot2 v v)

/-- WGSL `normalize(v) = v / length(v)` (componentwise division). -/
def normalize3 (ops : GpuOps α) (v : Vec3 α) : Vec3 α := v / length3 ops v

def exp3 (ops : GpuOps α) (v : Vec3 α) : Vec3 α := ⟨ops.exp v.x, ops.exp v.y, ops.exp v.z⟩

def sin3 (ops : GpuOps α) (v : Vec3 α) : Vec3 α := ⟨ops.sin v.x, ops.sin v.y, ops.sin v.z⟩

def abs3 (v : Vec3 α) : Vec3 α := ⟨|v.x|, |v.y|, |v.z|⟩

/-- A GPU texture: its dimensions and its texel contents (`textureLoad`). -/
structure Texture (α : Type) where
  dimx : ℤ
  dimy : ℤ
  load : ℤ → ℤ → Vec4 α

/-- The uniform block shared by the simulation shader (embedded in
`src/tools/mock-observer.ts`) and `render.wgsl` (padding fields omitted). -/
structure Uniforms (α : Type) where
  time : α
  intensity : α
  blend_factor : α
  scale : α
  current_state : ℕ
  target_state : ℕ
  frame_count : ℕ
  resolution : Vec2 α
  position : Vec2 α
  damping : α
  noise_strength : α
  attraction : α
  speed : α
  trail_fade : α
  glow_intensity : α
  color_shift : α

namespace Sim

/-! ## The field-simulation shader (WGSL source embedded in
`src/tools/mock-observer.ts`) -/

def VELOCITY_ROWS : ℤ := 30

def POS_SAMPLE_ROW : ℤ := 100

def INIT_FRAMES : ℕ := 10

def hash3 (p : Vec3 α) : Vec3 α :=
  let q := fract3 (p * (⟨443.8975, 397.2973, 491.1871⟩ : Vec3 α))
  let q := q + Vec3.splat (dot3 ⟨q.z, q.x, q.y⟩ (⟨q.y, q.x, q.z⟩ + Vec3.splat 19.1))
  fract3 ⟨q.x * q.y, q.z * q.x, q.y * q.z⟩ - Vec3.splat 0.5

def hash1 (ops : GpuOps α) (p : Vec3 α) : α :=
  let h := dot3 p ⟨127.1, 311.7, 74.7⟩
  fract (ops.sin h * 43758.5453)

def noise3 (ops : GpuOps α) (p : Vec3 α) : α :=
  let i := floor3 p
  let f := fract3 p
  let u := f * f * (Vec3.splat 3 - (2 : α) * f)
  let n000 := hash1 ops (i + ⟨0, 0, 0⟩)
  let n100 := hash1 ops (i + ⟨1, 0, 0⟩)
  let n010 := hash1 ops (i + ⟨0, 1, 0⟩)
  let n110 := hash1 ops (i + ⟨1, 1, 0⟩)
  let n001 := hash1 ops (i + ⟨0, 0, 1⟩)
  let n101 := hash1 ops (i + ⟨1, 0, 1⟩)
  let n011 := hash1 ops (i + ⟨0, 1, 1⟩)
  let n111 := hash1 ops (i + ⟨1, 1, 1⟩)
  let nx00 := mixf n000 n100 u.x
  let nx10 := mixf n010 n110 u.x
  let nx01 := mixf n001 n101 u.x
  let nx11 := mixf n011 n111 u.x
  let nxy0 := mixf nx00 nx10 u.y
  let nxy1 := mixf nx01 nx11 u.y
  mixf nxy0 nxy1 u.z

def fbm (ops : GpuOps α) (p : Vec3 α) : α :=
  let sum : α := 0
  let amp : α := 0.5
  let q := p
  let sum := sum + noise3 ops q * amp
  let q := q * (2 : α) + (⟨17, 11, 5⟩ : Vec3 α)
  let amp := amp * 0.5
  let sum := sum + noise3 ops q * amp
  let q := q * (2 : α) + (⟨17, 11, 5⟩ : Vec3 α)
  let amp := amp * 0.5
  let sum := sum + noise3 ops q * amp
  sum

def flow_noise (ops : GpuOps α) (p : Vec3 α) : Vec3 α :=
  let n1 := fbm ops p
  let n2 := fbm ops (p + ⟨11.5, 7.2, 3.4⟩)
  let n3 := fbm ops (p + ⟨5.2, 13.1, 9.7⟩)
  (⟨n1, n2, n3⟩ : Vec3 α) * (2 : α) - Vec3.splat 1

def sample_swarm_center (tex : Texture α) (pos_row : ℤ) : Vec3 α :=
  let max_index := tex.dimx - 1
  let acc : Vec3 α := ⟨0, 0, 0⟩
  let acc := acc + (tex.load (min 0 max_index) pos_row).xyz
  let acc := acc + (tex.load (min 9 max_index) pos_row).xyz
  let acc := acc + (tex.load (min 18 max_index) pos_row).xyz
  let acc := acc + (tex.load (min 27 max_index) pos_row).xyz
  let acc := acc + (tex.load (min 36 max_index) pos_row).xyz
  let acc := acc + (tex.load (min 45 max_index) pos_row).xyz
  let acc := acc + (tex.load (min 54 max_index) pos_row).xyz
  let acc := acc + (tex.load (min 63 max_index) pos_row).xyz
  acc / (8 : α)

def state_mods (state : ℕ) : Vec4 α :=
  if state = 1 then ⟨0.45, 1.2, 0.9, 1.0⟩
  else if state = 2 then ⟨1.8, 0.25, 0.2, 0.85⟩
  else if state = 3 then ⟨0.6, 1.4, 0.5, 0.95⟩
  else if state = 4 then ⟨-0.4, 1.6, 0.2, 0.95⟩
  else if state = 5 then ⟨0.15, 0.2, 0.1, 0.75⟩
  else ⟨0.55, 0.9, 0.35, 1.0⟩

def state_force (ops : GpuOps α) (state : ℕ) (pos vel : Vec3 α) (id time : α)
    (center goal : Vec3 α) : Vec3 α :=
  let offset := pos - center
  let offset_dir := normalize3 ops (offset + Vec3.splat 0.0001)
  let target_dir := normalize3 ops (goal - center + Vec3.splat 0.0001)
  if state = 1 then
    let probe := target_dir * (0.4 + 0.3 * ops.sin (time * 0.25 + id * 0.37))
    let stretch := offset_dir * (0.2 + 0.2 * ops.sin (time * 0.35 + id))
    probe + stretch
  else if state = 2 then
    let orbit := (⟨-offset.y, offset.x, 0⟩ : Vec3 α) * (0.03 : α)
    orbit - vel * (0.15 : α)
  else if state = 3 then
    let dart := wstep 0.95 (hash1 ops ⟨id * 1.3, time * 0.7, 4.7⟩)
    let dart_dir :=
      normalize3 ops (flow_noise ops (pos * (2.3 : α) + ⟨time * 0.8, id, time * 0.5⟩)
        + Vec3.splat 0.0001)
    dart_dir * dart * (2.6 : α)
  else if state = 4 then
    let pulse := 0.5 + 0.5 * ops.sin (time * 1.6 + id * 0.05)
    let burst := wstep 0.9 (hash1 ops ⟨time * 0.4, id * 0.17, 2.1⟩)
    offset_dir * (1.4 * pulse + burst * 3.0)
  else if state = 5 then
    let drift := offset_dir * (0.15 : α)
    (⟨0, -0.25, 0⟩ : Vec3 α) + drift
  else
    let orbit := (⟨-offset.y, offset.x, 0⟩ : Vec3 α) * (0.06 : α)
    let bob : Vec3 α := ⟨0, ops.sin (time * 0.2 + id * 0.5) * 0.03, 0⟩
    orbit + bob

/-- The goal anchor computed inside `update_velocity` from the uniforms:
`vec3((u.position - vec2(0.5, 0.5)) * vec2(aspect, 1.0) * 2.0, 0.0)`. -/
def goal_anchor (u : Uniforms α) : Vec3 α :=
  let aspect := u.resolution.x / max u.resolution.y 1
  let g := (u.position - (⟨0.5, 0.5⟩ : Vec2 α)) * (⟨aspect, 1.0⟩ : Vec2 α) * (2 : α)
  ⟨g.x, g.y, 0⟩

def update_velocity (ops : GpuOps α) (u : Uniforms α) (vel pos : Vec3 α) (id time : α)
    (center : Vec3 α) : Vec3 α :=
  let mods_cur := state_mods (α := α) u.current_state
  let mods_tgt := state_mods (α := α) u.target_state
  let mods := mix4 mods_cur mods_tgt u.blend_factor
  let energy := 0.35 + 0.65 * u.intensity
  let v := vel * (u.damping * mods.w)
  let flow :=
    flow_noise ops (pos * (1.1 : α) + vel * (0.15 : α) + ⟨time * 0.2, time * 0.17, time * 0.13⟩)
  let v := v + flow * (u.noise_strength * mods.y)
  let goal := goal_anchor u
  let to_center := center - pos
  let dist := length3 ops to_center
  let center_dir := normalize3 ops (to_center + Vec3.splat 0.0001)
  let v := v + center_dir * dist * u.attraction * mods.x
  let to_goal := goal - pos
  let goal_dist := length3 ops to_goal
  let goal_dir := normalize3 ops (to_goal + Vec3.splat 0.0001)
  let v := v + goal_dir * goal_dist * (0.18 : α) * mods.z
  let state_force_cur := state_force ops u.current_state pos vel id time center goal
  let state_force_tgt := state_force ops u.target_state pos vel id time center goal
  let v := v + mix3 state_force_cur state_force_tgt u.blend_factor * energy
  let boundary_center := goal
  let boundary_radius : α := 1.7
  let boundary_offset := pos - boundary_center
  let boundary_dist := length3 ops boundary_offset
  let v :=
    if boundary_radius < boundary_dist then
      let push := normalize3 ops (boundary_offset + Vec3.splat 0.0001) * (boundary_dist - boundary_radius)
      v - push * (1.4 : α)
    else v
  let speed := length3 ops v
  let max_speed : α := 6.0
  if max_speed < speed then v * (max_speed / speed) else v

def fs_main (ops : GpuOps α) (u : Uniforms α) (tex : Texture α) (cx cy : ℤ) : Vec4 α :=
  if cx < 0 ∨ cy < 0 ∨ tex.dimx ≤ cx ∨ tex.dimy ≤ cy then ⟨0, 0, 0, 0⟩
  else if u.frame_count < INIT_FRAMES then
    let q : Vec2 α := ⟨(cx : α) / (tex.dimx : α), (cy : α) / (tex.dimy : α)⟩
    let noise := hash3 (⟨q.x * 1.9, q.y * 1.9, 0.0⟩ : Vec3 α)
    if cy < VELOCITY_ROWS then Vec4.ofV3 (noise * (10.0 : α)) 1
    else Vec4.ofV3 (noise * (0.5 : α)) 1
  else
    let pos_row := min POS_SAMPLE_ROW (tex.dimy - 1)
    let vel_row : ℤ := 0
    let pos := (tex.load cx pos_row).xyz
    let vel := (tex.load cx vel_row).xyz
    let swarm_center := sample_swarm_center tex pos_row
    let new_vel := update_velocity ops u vel pos (cx : α) u.time swarm_center
    let new_pos := pos + new_vel * (0.002 * u.speed)
    if cy < VELOCITY_ROWS then Vec4.ofV3 new_vel 1
    else Vec4.ofV3 new_pos 1

end Sim

/-! ## Shared concrete gadgets for evaluations -/

/-- A trivial implementation of the intrinsics, for concrete evaluation of
code paths that do not depend on their values. -/
def zeroOps : GpuOps α := ⟨fun _ => 0, fun _ => 0, fun _ => 0, fun _ _ => 0, fun _ => 0⟩

/-- An all-zero uniform block (frame counter 0). -/
def u0 : Uniforms α :=
  ⟨0, 0, 0, 0, 0, 0, 0, ⟨0, 0⟩, ⟨0, 0⟩, 0, 0, 0, 0, 0, 0, 0⟩

/-- A 256×256 all-zero previous-state texture. -/
def texZero256 : Texture α := ⟨256, 256, fun _ _ => ⟨0, 0, 0, 0⟩⟩

theorem dot3_self_nonneg {β : Type} [LinearOrderedField β] (v : Vec3 β) : 0 ≤ dot3 v v := by
  simp only [dot3]
  have hx := mul_self_nonneg v.x
  have hy := mul_self_nonneg v.y
  have hz := mul_self_nonneg v.z
  linarith

theorem clampSpeed_dot_le (ops : GpuOps ℝ)
    (hsqrt : ∀ x : ℝ, 0 ≤ x → ops.sqrt x = Real.sqrt x) (w : Vec3 ℝ) :
    dot3 (if (6.0 : ℝ) < length3 ops w then w * ((6.0 : ℝ) / length3 ops w) else w)
      (if (6.0 : ℝ) < length3 ops w then w * ((6.0 : ℝ) / length3 ops w) else w) ≤ 36 := by
  have h6 : (6.0 : ℝ) = 6 := by norm_num
  have hd0 : 0 ≤ dot3 w w := dot3_self_nonneg w
  have hs : length3 ops w = Real.sqrt (dot3 w w) := by
    rw [length3, hsqrt _ hd0]
  rw [h6, hs]
  by_cases h : (6 : ℝ) < Real.sqrt (dot3 w w)
  · rw [if_pos h]
    have hdpos : 0 < dot3 w w := Real.sqrt_pos.mp (lt_trans (by norm_num) h)
    have hsq : dot3 (w * ((6 : ℝ) / Real.sqrt (dot3 w w))) (w * ((6 : ℝ) / Real.sqrt (dot3 w w)))
        = dot3 w w * ((6 : ℝ) / Real.sqrt (dot3 w w)) ^ 2 := by
      simp only [dot3, v3smul_def]
      ring
    rw [hsq, div_pow, Real.sq_sqrt hd0]
    have : dot3 w w * ((6 : ℝ) ^ 2 / dot3 w w) = 36 := by
      field_simp
      ring
    rw [this]
  · rw [if_neg h]
    push_neg at h
    calc dot3 w w = Real.sqrt (dot3 w w) ^ 2 := (Real.sq_sqrt hd0).symm
    _ ≤ 6 ^ 2 := by
        apply pow_le_pow_left₀ (Real.sqrt_nonneg _) h
    _ = 36 := by norm_num

/-- C1 (amended): on the recurrent path, the velocity produced by
`update_velocity` always has squared magnitude at most `36 = max_speed^2`:
the final clamp guarantees `|velocity| <= 6.0`, for any implementation of
the remaining intrinsics and any inputs.  (The warm-up frames are the
amendment: see the counterexample.) -/
theorem C1_update_velocity_speed_bound (ops : GpuOps ℝ)
    (hsqrt : ∀ x : ℝ, 0 ≤ x → ops.sqrt x = Real.sqrt x)
    (u : Uniforms ℝ) (vel pos : Vec3 ℝ) (id t : ℝ) (center : Vec3 ℝ) :
    dot3 (Sim.update_velocity ops u vel pos id t center)
      (Sim.update_velocity ops u vel pos id t center) ≤ 36 := by
  simp only [Sim.update_velocity]
  exact clampSpeed_dot_le ops hsqrt _

theorem C1_update_velocity_speed_bound_witness :
    (∀ x : ℝ, 0 ≤ x →
      (GpuOps.mk Real.sin Real.cos Real.exp (fun a b => Real.rpow a b) Real.sqrt).sqrt x = Real.sqrt x)
    ∧ dot3
        (Sim.update_velocity ⟨Real.sin, Real.cos, Real.exp, fun a b => Real.rpow a b, Real.sqrt⟩ u0
          ⟨0, 0, 0⟩ ⟨0, 0, 0⟩ 0 0 ⟨0, 0, 0⟩)
        (Sim.update_velocity ⟨Real.sin, Real.cos, Real.exp, fun a b => Real.rpow a b, Real.sqrt⟩ u0
          ⟨0, 0, 0⟩ ⟨0, 0, 0⟩ 0 0 ⟨0, 0, 0⟩) ≤ 36 :=
  ⟨fun _ _ => rfl,
    C1_update_velocity_speed_bound _ (fun _ _ => rfl) u0 ⟨0, 0, 0⟩ ⟨0, 0, 0⟩ 0 0 ⟨0, 0, 0⟩⟩

/-- C1 (counterexample to the claim as stated): during a warm-up frame
(`frame_count = 0 < INIT_FRAMES`), the texel `(0,0)` — a velocity-row entry —
receives the hashed pseudo-random velocity `(-5,-5,-5)`, whose squared
magnitude `75` exceeds `36 = max_speed^2`.  The warm-up path bypasses the
velocity clamp, so `|velocity| = 5 * sqrt 3 > 6` there. -/
theorem C1_warmup_velocity_exceeds_max_speed :
    (u0 : Uniforms ℚ).frame_count < Sim.INIT_FRAMES ∧ (0 : ℤ) < Sim.VELOCITY_ROWS ∧
    (36 : ℚ) <
      dot3 ((Sim.fs_main (zeroOps : GpuOps ℚ) u0 texZero256 0 0).xyz)
        ((Sim.fs_main (zeroOps : GpuOps ℚ) u0 texZero256 0 0).xyz) := by
  refine ⟨by decide, by decide, ?_⟩
  norm_num [Sim.fs_main, Sim.INIT_FRAMES, Sim.VELOCITY_ROWS, Sim.hash3, u0, texZero256,
    zeroOps, fract3, fract, Vec3.splat, Vec4.ofV3, Vec4.xyz, dot3]

/-- A 256×256 constant nonzero texture (differs from `texZero256` everywhere). -/
def texOnes256 : Texture α := ⟨256, 256, fun _ _ => ⟨1, 2, 3, 4⟩⟩

/-- An all-zero uniform block with frame counter 10 (first recurrent frame). -/
def u10 : Uniforms α :=
  ⟨0, 0, 0, 0, 0, 0, 10, ⟨0, 0⟩, ⟨0, 0⟩, 0, 0, 0, 0, 0, 0, 0⟩

/-- C2: during warm-up frames (`frame_count < INIT_FRAMES`), the simulation
shader output at a texel is a function of the texel coordinate and the
state-texture dimensions only: two previous-state textures with the same
dimensions but arbitrarily different contents yield identical outputs. -/
theorem C2_warmup_output_independent_of_prev_state (ops : GpuOps α) (u : Uniforms α)
    (tex1 tex2 : Texture α) (cx cy : ℤ) (hf : u.frame_count < Sim.INIT_FRAMES)
    (hx : tex1.dimx = tex2.dimx) (hy : tex1.dimy = tex2.dimy) :
    Sim.fs_main ops u tex1 cx cy = Sim.fs_main ops u tex2 cx cy := by
  simp only [Sim.fs_main, hx, hy]
  split_ifs <;> rfl

theorem C2_warmup_output_independent_of_prev_state_witness :
    ((u0 : Uniforms ℚ).frame_count < Sim.INIT_FRAMES
      ∧ (texZero256 : Texture ℚ).dimx = (texOnes256 : Texture ℚ).dimx)
    ∧ Sim.fs_main (zeroOps : GpuOps ℚ) u0 texZero256 7 3
        = Sim.fs_main (zeroOps : GpuOps ℚ) u0 texOnes256 7 3 :=
  ⟨⟨by decide, rfl⟩,
    C2_warmup_output_independent_of_prev_state zeroOps u0 texZero256 texOnes256 7 3
      (by decide) rfl rfl⟩

/-- C8: past warm-up, on a position row (`cy ≥ VELOCITY_ROWS`), the shader
writes plain Euler integration: the previous position plus the newly
computed velocity scaled by the fixed step `0.002 * u.speed`. -/
theorem C8_position_update_is_euler (ops : GpuOps α) (u : Uniforms α) (tex : Texture α)
    (cx cy : ℤ) (hf : Sim.INIT_FRAMES ≤ u.frame_count) (hx0 : 0 ≤ cx) (hx : cx < tex.dimx)
    (hylo : Sim.VELOCITY_ROWS ≤ cy) (hyhi : cy < tex.dimy) :
    Sim.fs_main ops u tex cx cy =
      Vec4.ofV3
        ((tex.load cx (min Sim.POS_SAMPLE_ROW (tex.dimy - 1))).xyz
          + Sim.update_velocity ops u (tex.load cx 0).xyz
              (tex.load cx (min Sim.POS_SAMPLE_ROW (tex.dimy - 1))).xyz (cx : α) u.time
              (Sim.sample_swarm_center tex (min Sim.POS_SAMPLE_ROW (tex.dimy - 1)))
            * (0.002 * u.speed)) 1 := by
  have h30 : (0 : ℤ) < Sim.VELOCITY_ROWS := by decide
  have hb : ¬(cx < 0 ∨ cy < 0 ∨ tex.dimx ≤ cx ∨ tex.dimy ≤ cy) := by
    push_neg
    exact ⟨hx0, by omega, hx, hyhi⟩
  have hfr : ¬(u.frame_count < Sim.INIT_FRAMES) := by omega
  have hrow : ¬(cy < Sim.VELOCITY_ROWS) := by omega
  simp only [Sim.fs_main, if_neg hb, if_neg hfr, if_neg hrow]

theorem C8_position_update_is_euler_witness :
    (Sim.INIT_FRAMES ≤ (u10 : Uniforms ℚ).frame_count ∧ (0 : ℤ) ≤ 5
      ∧ (5 : ℤ) < (texOnes256 : Texture ℚ).dimx
      ∧ Sim.VELOCITY_ROWS ≤ (40 : ℤ) ∧ (40 : ℤ) < (texOnes256 : Texture ℚ).dimy)
    ∧ Sim.fs_main (zeroOps : GpuOps ℚ) u10 texOnes256 5 40 =
      Vec4.ofV3
        (((texOnes256 : Texture ℚ).load 5 (min Sim.POS_SAMPLE_ROW ((texOnes256 : Texture ℚ).dimy - 1))).xyz
          + Sim.update_velocity zeroOps u10 ((texOnes256 : Texture ℚ).load 5 0).xyz
              ((texOnes256 : Texture ℚ).load 5 (min Sim.POS_SAMPLE_ROW ((texOnes256 : Texture ℚ).dimy - 1))).xyz ((5 : ℤ) : ℚ) (u10 : Uniforms ℚ).time
              (Sim.sample_swarm_center texOnes256 (min Sim.POS_SAMPLE_ROW ((texOnes256 : Texture ℚ).dimy - 1)))
            * (0.002 * (u10 : Uniforms ℚ).speed)) 1 :=
  ⟨⟨by decide, by decide, by decide, by decide, by decide⟩,
    C8_position_update_is_euler zeroOps u10 texOnes256 5 40 (by decide) (by decide)
      (by decide) (by decide) (by decide)⟩

/-! ## Division-by-zero instrumentation for C3 -/

@[simp] theorem Vec3.sub_self (v : Vec3 α) : v - v = (⟨0, 0, 0⟩ : Vec3 α) := by
  simp

/-- WGSL `normalize` with the division by zero made observable: `none`
exactly when the argument is the zero vector (where `v / length(v)` is IEEE
`0/0 = NaN`); otherwise the same value as `normalize3`. -/
def checkedNormalize3 (ops : GpuOps α) (v : Vec3 α) : Option (Vec3 α) :=
  if v = (⟨0, 0, 0⟩ : Vec3 α) then none else some (normalize3 ops v)

namespace Sim

/-- Function `state_force`, with every `normalize` routed through
`checkedNormalize3`; otherwise the identical computation. -/
def state_force_checked (ops : GpuOps α) (state : ℕ) (pos vel : Vec3 α) (id time : α)
    (center goal : Vec3 α) : Option (Vec3 α) := do
  let offset := pos - center
  let offset_dir ← checkedNormalize3 ops (offset + Vec3.splat 0.0001)
  let target_dir ← checkedNormalize3 ops (goal - center + Vec3.splat 0.0001)
  if state = 1 then
    let probe := target_dir * (0.4 + 0.3 * ops.sin (time * 0.25 + id * 0.37))
    let stretch := offset_dir * (0.2 + 0.2 * ops.sin (time * 0.35 + id))
    pure (probe + stretch)
  else if state = 2 then
    let orbit := (⟨-offset.y, offset.x, 0⟩ : Vec3 α) * (0.03 : α)
    pure (orbit - vel * (0.15 : α))
  else if state = 3 then do
    let dart := wstep 0.95 (hash1 ops ⟨id * 1.3, time * 0.7, 4.7⟩)
    let dart_dir ←
      checkedNormalize3 ops (flow_noise ops (pos * (2.3 : α) + ⟨time * 0.8, id, time * 0.5⟩)
        + Vec3.splat 0.0001)
    pure (dart_dir * dart * (2.6 : α))
  else if state = 4 then
    let pulse := 0.5 + 0.5 * ops.sin (time * 1.6 + id * 0.05)
    let burst := wstep 0.9 (hash1 ops ⟨time * 0.4, id * 0.17, 2.1⟩)
    pure (offset_dir * (1.4 * pulse + burst * 3.0))
  else if state = 5 then
    let drift := offset_dir * (0.15 : α)
    pure ((⟨0, -0.25, 0⟩ : Vec3 α) + drift)
  else
    let orbit := (⟨-offset.y, offset.x, 0⟩ : Vec3 α) * (0.06 : α)
    let bob : Vec3 α := ⟨0, ops.sin (time * 0.2 + id * 0.5) * 0.03, 0⟩
    pure (orbit + bob)

/-- Function `update_velocity`, with every `normalize` routed through
`checkedNormalize3`; otherwise the identical computation. -/
def update_velocity_checked (ops : GpuOps α) (u : Uniforms α) (vel pos : Vec3 α)
    (id time : α) (center : Vec3 α) : Option (Vec3 α) := do
  let mods_cur := state_mods (α := α) u.current_state
  let mods_tgt := state_mods (α := α) u.target_state
  let mods := mix4 mods_cur mods_tgt u.blend_factor
  let energy := 0.35 + 0.65 * u.intensity
  let v := vel * (u.damping * mods.w)
  let flow :=
    flow_noise ops (pos * (1.1 : α) + vel * (0.15 : α) + ⟨time * 0.2, time * 0.17, time * 0.13⟩)
  let v := v + flow * (u.noise_strength * mods.y)
  let goal := goal_anchor u
  let to_center := center - pos
  let dist := length3 ops to_center
  let center_dir ← checkedNormalize3 ops (to_center + Vec3.splat 0.0001)
  let v := v + center_dir * dist * u.attraction * mods.x
  let to_goal := goal - pos
  let goal_dist := length3 ops to_goal
  let goal_dir ← checkedNormalize3 ops (to_goal + Vec3.splat 0.0001)
  let v := v + goal_dir * goal_dist * (0.18 : α) * mods.z
  let state_force_cur ← state_force_checked ops u.current_state pos vel id time center goal
  let state_force_tgt ← state_force_checked ops u.target_state pos vel id time center goal
  let v := v + mix3 state_force_cur state_force_tgt u.blend_factor * energy
  let boundary_center := goal
  let boundary_radius : α := 1.7
  let boundary_offset := pos - boundary_center
  let boundary_dist := length3 ops boundary_offset
  let v ←
    if boundary_radius < boundary_dist then do
      let push_dir ← checkedNormalize3 ops (boundary_offset + Vec3.splat 0.0001)
      let push := push_dir * (boundary_dist - boundary_radius)
      pure (v - push * (1.4 : α))
    else pure v
  let speed := length3 ops v
  let max_speed : α := 6.0
  if max_speed < speed then pure (v * (max_speed / speed)) else pure v

end Sim

theorem state_force_checked_at_center (ops : GpuOps α) (s : ℕ) (hs : s ≠ 3)
    (vel : Vec3 α) (id t : α) (c : Vec3 α) :
    Sim.state_force_checked ops s c vel id t c c
      = some (Sim.state_force ops s c vel id t c c) := by
  simp only [Sim.state_force_checked, Sim.state_force, checkedNormalize3, Vec3.sub_self]
  norm_num [Vec3.splat, Vec3.mk.injEq]
  split_ifs <;> simp_all

theorem checkedNormalize3_zero_eps (ops : GpuOps α) :
    checkedNormalize3 ops ((⟨0, 0, 0⟩ : Vec3 α) + Vec3.splat 0.0001)
      = some (normalize3 ops ((⟨0, 0, 0⟩ : Vec3 α) + Vec3.splat 0.0001)) := by
  rw [checkedNormalize3, if_neg]
  norm_num [Vec3.splat, Vec3.mk.injEq]

/-- C3 (amended): with zero relative position to the swarm center and to the
goal anchor, every normalization performed by the velocity update and by the
per-mode forces receives a nonzero vector — the additive epsilon guarantees
this — provided neither the current nor the target mode is mode 3
(`focused`), whose dart force normalizes a noise vector plus epsilon.  The
division-checked computation succeeds and agrees with the plain embedding,
for every implementation of the intrinsics.  (The mode-3 restriction is the
amendment; see the counterexample.) -/
theorem C3_zero_relpos_no_div_by_zero (ops : GpuOps α) (u : Uniforms α)
    (vel pos : Vec3 α) (id t : α) (center : Vec3 α)
    (hc : pos = center) (hg : Sim.goal_anchor u = pos)
    (hcur : u.current_state ≠ 3) (htgt : u.target_state ≠ 3) :
    Sim.update_velocity_checked ops u vel pos id t center
      = some (Sim.update_velocity ops u vel pos id t center) := by
  subst hc
  simp only [Sim.update_velocity_checked, Sim.update_velocity, hg, Vec3.sub_self,
    checkedNormalize3_zero_eps, state_force_checked_at_center ops _ hcur,
    state_force_checked_at_center ops _ htgt, Option.bind_eq_bind, Option.some_bind,
    Option.pure_def]
  split_ifs <;> rfl

/-- A uniform block whose goal anchor is the origin (`position = (0.5, 0.5)`),
with a non-dart mode pair (`idle → curious`). -/
def uCalm : Uniforms α :=
  ⟨0, 1, 0, 1, 0, 1, 10, ⟨1, 1⟩, ⟨0.5, 0.5⟩, 1, 1, 1, 1, 1, 1, 0⟩

theorem C3_zero_relpos_no_div_by_zero_witness :
    ((⟨0, 0, 0⟩ : Vec3 ℚ) = ⟨0, 0, 0⟩ ∧ Sim.goal_anchor (uCalm : Uniforms ℚ) = ⟨0, 0, 0⟩
      ∧ (uCalm : Uniforms ℚ).current_state ≠ 3 ∧ (uCalm : Uniforms ℚ).target_state ≠ 3)
    ∧ Sim.update_velocity_checked (zeroOps : GpuOps ℚ) uCalm ⟨1, 2, 3⟩ ⟨0, 0, 0⟩ 5 7 ⟨0, 0, 0⟩
      = some (Sim.update_velocity zeroOps uCalm ⟨1, 2, 3⟩ ⟨0, 0, 0⟩ 5 7 ⟨0, 0, 0⟩) :=
  ⟨⟨rfl, by norm_num [Sim.goal_anchor, uCalm], by decide, by decide⟩,
    C3_zero_relpos_no_div_by_zero zeroOps uCalm ⟨1, 2, 3⟩ ⟨0, 0, 0⟩ 5 7 ⟨0, 0, 0⟩ rfl
      (by norm_num [Sim.goal_anchor, uCalm]) (by decide) (by decide)⟩

/-- An intrinsics implementation whose `sin` is exact at `0` and elsewhere
the constant `(9999/17500) / 43758.5453` (within `[-1, 1]`).  In the
counterexample run every `sin` argument other than `0` lies far outside
`[-π, π]`, where WGSL leaves the accuracy of `sin` implementation-defined,
so the run is consistent with an admissible implementation. -/
def cexOps3 : GpuOps ℚ :=
  ⟨fun x => if x = 0 then 0 else 9999 / 17500 / 43758.5453,
    fun _ => 0, fun _ => 0, fun _ _ => 0, fun _ => 1⟩

/-- Uniforms with `current = target = 3` (the dart mode) and goal anchor at
the origin. -/
def uDart : Uniforms α :=
  ⟨100, 1, 0, 1, 3, 3, 10, ⟨1, 1⟩, ⟨0.5, 0.5⟩, 1, 1, 1, 1, 1, 1, 0⟩

/-- C3 (counterexample to the claim as stated): an entry with zero relative
position to the swarm center and to the goal anchor, in mode 3, makes the
dart-direction normalization divide by zero: `flow_noise(...) + vec3(0.0001)`
is exactly the zero vector, so the epsilon does not prevent `0/0` in every
normalization and the checked velocity update fails (producing the NaN the
claim rules out). -/
theorem C3_dart_mode_divides_by_zero :
    (∀ x : ℚ, |cexOps3.sin x| ≤ 1) ∧ cexOps3.sin 0 = 0
    ∧ Sim.goal_anchor (uDart : Uniforms ℚ) = ⟨0, 0, 0⟩
    ∧ Sim.update_velocity_checked cexOps3 uDart ⟨0, 0, 0⟩ ⟨0, 0, 0⟩ 7 100 ⟨0, 0, 0⟩ = none := by
  refine ⟨fun x => ?_, rfl, by norm_num [Sim.goal_anchor, uDart], ?_⟩
  · rcases eq_or_ne x 0 with rfl | h
    · norm_num [cexOps3]
    · simp only [cexOps3]
      rw [if_neg h]
      norm_num [abs_le]
  · norm_num [Sim.update_velocity_checked, Sim.state_force_checked, checkedNormalize3,
      Sim.goal_anchor, uDart, Sim.flow_noise, Sim.fbm, Sim.noise3, Sim.hash1, cexOps3,
      fract, fract3, floor3, mixf, Vec3.splat, Vec3.mk.injEq, Option.bind_eq_bind,
      Option.pure_def, dot3, wstep]

/-- A 70×128 texture whose row entries ramp linearly in `x`: its full-row
mean differs from the stride-9 subsample mean. -/
def texRamp70 : Texture α := ⟨70, 128, fun x _ => ⟨(x : α), 0, 0, 1⟩⟩

/-- C7: the swarm center is the arithmetic mean of the 8 texels at the fixed
stride-9 indices `min(9k, dims.x - 1)`, `k = 0..7` — and it is not the mean
over all entries (witnessed on a 70-entry ramp texture, where the two means
differ). -/
theorem C7_swarm_center_is_strided_subsample_mean :
    (∀ (tex : Texture ℚ) (row : ℤ),
      Sim.sample_swarm_center tex row =
        (((List.range 8).map fun k => (tex.load (min (9 * (k : ℤ)) (tex.dimx - 1)) row).xyz).foldl
          (· + ·) ⟨0, 0, 0⟩) / (8 : ℚ))
    ∧ Sim.sample_swarm_center (texRamp70 : Texture ℚ) 100 ≠
        (((List.range 70).map fun k => ((texRamp70 : Texture ℚ).load (k : ℤ) 100).xyz).foldl
          (· + ·) ⟨0, 0, 0⟩) / (70 : ℚ) := by
  constructor
  · intro tex row
    have h8 : List.range 8 = [0, 1, 2, 3, 4, 5, 6, 7] := by decide
    simp only [Sim.sample_swarm_center, h8, List.map, List.foldl]
    norm_num
  · simp only [Sim.sample_swarm_center, texRamp70, List.range]
    norm_num [List.range.loop, List.map, List.foldl, Vec3.mk.injEq, Vec4.xyz]

instance [Div α] : Div (Vec2 α) := ⟨fun a b => ⟨a.x / b.x, a.y / b.y⟩⟩

@[simp] theorem v2divv_def [Div α] (a b : Vec2 α) :
    a / b = ⟨a.x / b.x, a.y / b.y⟩ := rfl

namespace RenderShader

/-! ## `src/renderer/src/shaders/render.wgsl` (particle compositor).
`frag_coord.xy` is modelled at the pixel center `(cx + 0.5, cy + 0.5)`, so
`vec2<i32>(i32(frag_coord.x), i32(frag_coord.y))` is `(cx, cy)`. -/

def TAU : α := 6.2831853

def NUM_PARTICLES : ℕ := 70

def STEPS_PER_FRAME : ℕ := 4

def POS_SAMPLE_ROW : ℤ := 100

def mag (p : Vec3 α) : α := dot3 p p

def draw_particles (ops : GpuOps α) (u : Uniforms α) (state_tex : Texture α)
    (ro rd : Vec3 α) : Vec3 α :=
  let pos_row := min POS_SAMPLE_ROW (state_tex.dimy - 1)
  let vel_row : ℤ := 0
  let rez :=
    (List.range NUM_PARTICLES).foldl (fun rez i =>
      let pos := (state_tex.load (i : ℤ) pos_row).xyz
      let vel := (state_tex.load (i : ℤ) vel_row).xyz
      let s :=
        (List.range STEPS_PER_FRAME).foldl (fun s _ =>
          let rez := s.1
          let step_pos := s.2
          let t := dot3 (step_pos - ro) rd
          let closest := ro + rd * t
          let d := mag (closest - step_pos)
          let d := 0.14 / (ops.pow (d * 1000.0) 1.1 + 0.03)
          let phase := u.time * 0.06 + (i : α) * 0.003 + 2.0 + u.color_shift * TAU
          let color :=
            abs3 (sin3 ops ((⟨2.0, 3.4, 1.2⟩ : Vec3 α) * phase + ⟨0.8, 0.0, 1.2⟩) * (0.7 : α)
              + Vec3.splat 0.3)
          let rez := rez + d * color * (0.08 : α)
          let step_pos := step_pos + vel * (0.002 * 0.2 * u.speed)
          (rez, step_pos)) (rez, pos)
      s.1) (⟨0, 0, 0⟩ : Vec3 α)
  rez / (STEPS_PER_FRAME : α)

def fs_main (ops : GpuOps α) (u : Uniforms α) (state_tex prev_render : Texture α)
    (cx cy : ℤ) : Vec4 α :=
  let res : Vec2 α := ⟨(prev_render.dimx : α), (prev_render.dimy : α)⟩
  let p := (⟨(cx : α) + 0.5, (cy : α) + 0.5⟩ : Vec2 α) / res - (⟨0.5, 0.5⟩ : Vec2 α)
  let aspect := res.x / res.y
  let p : Vec2 α := ⟨p.x * aspect, p.y⟩
  let center_offset := (u.position - (⟨0.5, 0.5⟩ : Vec2 α)) * (⟨aspect, 1.0⟩ : Vec2 α)
  let p := (p - center_offset) / max u.scale 0.001
  let ro : Vec3 α := ⟨0.0, 0.0, 2.5⟩
  let rd := normalize3 ops ⟨p.x, p.y, -0.5⟩
  let cola := draw_particles ops u state_tex ro rd
  let cola := cola * u.glow_intensity * (0.55 + 0.45 * u.intensity)
  let colb := (prev_render.load cx cy).xyz
  let col := (cola + colb) * u.trail_fade
  let col := Vec3.splat 1 - exp3 ops (-col)
  let col := if u.frame_count < 5 then (⟨0, 0, 0⟩ : Vec3 α) else col
  Vec4.ofV3 (clamp3 col (Vec3.splat 0) (Vec3.splat 1)) 1

/-- The per-frame contribution of the particle pass (the `cola` value of
`fs_main`, after glow/intensity scaling). -/
def new_contribution (ops : GpuOps α) (u : Uniforms α) (state_tex prev_render : Texture α)
    (cx cy : ℤ) : Vec3 α :=
  let res : Vec2 α := ⟨(prev_render.dimx : α), (prev_render.dimy : α)⟩
  let p := (⟨(cx : α) + 0.5, (cy : α) + 0.5⟩ : Vec2 α) / res - (⟨0.5, 0.5⟩ : Vec2 α)
  let aspect := res.x / res.y
  let p : Vec2 α := ⟨p.x * aspect, p.y⟩
  let center_offset := (u.position - (⟨0.5, 0.5⟩ : Vec2 α)) * (⟨aspect, 1.0⟩ : Vec2 α)
  let p := (p - center_offset) / max u.scale 0.001
  let ro : Vec3 α := ⟨0.0, 0.0, 2.5⟩
  let rd := normalize3 ops ⟨p.x, p.y, -0.5⟩
  let cola := draw_particles ops u state_tex ro rd
  cola * u.glow_intensity * (0.55 + 0.45 * u.intensity)

/-- The compositor stage as the spec describes it, with the exponential
tone-map the code actually uses:
`clamp(1 - exp(-((new + accum) * trail_fade)), 0, 1)`. -/
def compositor_exp (ops : GpuOps α) (u : Uniforms α) (state_tex prev_render : Texture α)
    (cx cy : ℤ) : Vec4 α :=
  let cola := new_contribution ops u state_tex prev_render cx cy
  let accum := (prev_render.load cx cy).xyz
  let col := (cola + accum) * u.trail_fade
  let col := Vec3.splat 1 - exp3 ops (-col)
  Vec4.ofV3 (clamp3 col (Vec3.splat 0) (Vec3.splat 1)) 1

def reinhard3 (v : Vec3 α) : Vec3 α := ⟨v.x / (v.x + 1), v.y / (v.y + 1), v.z / (v.z + 1)⟩

/-- The compositor stage with the `color / (color + 1)`-style tone-map the
claim asserts (written from the spec's words, for comparison). -/
def compositor_reinhard (ops : GpuOps α) (u : Uniforms α) (state_tex prev_render : Texture α)
    (cx cy : ℤ) : Vec4 α :=
  let cola := new_contribution ops u state_tex prev_render cx cy
  let accum := (prev_render.load cx cy).xyz
  let col := (cola + accum) * u.trail_fade
  let col := reinhard3 col
  Vec4.ofV3 (clamp3 col (Vec3.splat 0) (Vec3.splat 1)) 1

end RenderShader

/-- C4 (amended): past the 5-frame warm-up blackout, the compositor output is
exactly the accumulation recurrence `(new_contribution + accum) * trail_fade`
followed by the exponential tone-map `1 - exp(-color)` and a clamp to
`[0, 1]`. -/
theorem C4_compositor_recurrence_exp_tonemap (ops : GpuOps α) (u : Uniforms α)
    (state_tex prev_render : Texture α) (cx cy : ℤ) (hf : 5 ≤ u.frame_count) :
    RenderShader.fs_main ops u state_tex prev_render cx cy
      = RenderShader.compositor_exp ops u state_tex prev_render cx cy := by
  have h : ¬(u.frame_count < 5) := by omega
  simp only [RenderShader.fs_main, RenderShader.compositor_exp,
    RenderShader.new_contribution, if_neg h]

theorem C4_compositor_recurrence_exp_tonemap_witness :
    (5 ≤ (u10 : Uniforms ℚ).frame_count)
    ∧ RenderShader.fs_main (zeroOps : GpuOps ℚ) u10 texZero256 texOnes256 0 0
      = RenderShader.compositor_exp (zeroOps : GpuOps ℚ) u10 texZero256 texOnes256 0 0 :=
  ⟨by decide,
    C4_compositor_recurrence_exp_tonemap zeroOps u10 texZero256 texOnes256 0 0 (by decide)⟩

/-- Uniforms for the tone-map counterexample: frame 5 (past the blackout),
`glow_intensity = 0` (no particle contribution), `trail_fade = 1`. -/
def uTone : Uniforms α := ⟨0, 0, 0, 1, 0, 0, 5, ⟨4, 4⟩, ⟨0.5, 0.5⟩, 0, 0, 0, 0, 1, 0, 0⟩

/-- C4 (counterexample to the claim as stated): the code's tone-map is
`1 - exp(-color)`, not a `color / (color + 1)` compression: with a previous
accumulation of `1` and no new contribution, the code outputs
`1 - exp(-1) ≈ 0.632` where the claimed tone-map gives `1/2`. -/
theorem C4_tonemap_is_not_reinhard :
    5 ≤ (uTone : Uniforms ℝ).frame_count
    ∧ RenderShader.fs_main ⟨fun _ => 0, fun _ => 0, Real.exp, fun _ _ => 0, fun _ => 0⟩ uTone
        texZero256 texOnes256 0 0
      ≠ RenderShader.compositor_reinhard ⟨fun _ => 0, fun _ => 0, Real.exp, fun _ _ => 0, fun _ => 0⟩ uTone
        texZero256 texOnes256 0 0 := by
  refine ⟨by decide, fun heq => ?_⟩
  have hx := congrArg Vec4.x heq
  have he : (2 : ℝ) < Real.exp 1 := lt_trans (by norm_num) Real.exp_one_gt_d9
  have hpos : (0 : ℝ) < Real.exp (-1) := Real.exp_pos _
  have hlt : Real.exp (-1) < 1 / 2 := by
    rw [Real.exp_neg]
    have h2 : (0 : ℝ) < 2 := by norm_num
    calc (Real.exp 1)⁻¹ < 2⁻¹ := by
          apply inv_lt_inv_of_lt h2 he
    _ = 1 / 2 := by norm_num
  simp only [RenderShader.fs_main, RenderShader.compositor_reinhard,
    RenderShader.new_contribution, RenderShader.reinhard3, uTone, texOnes256] at hx
  norm_num [Vec4.ofV3, clamp3, clampf, exp3, Vec3.splat, Vec4.xyz] at hx
  rw [inf_eq_left.mpr (by linarith : (1 : ℝ) - Real.exp (-1) ≤ 1)] at hx
  linarith

/-- The uniform block of `src/renderer/src/shaders/entity.wgsl` (padding
omitted). -/
structure EUniforms (α : Type) where
  time : α
  intensity : α
  blend_factor : α
  current_state : ℕ
  target_state : ℕ
  resolution : Vec2 α

namespace Entity

/-! ## `src/renderer/src/shaders/entity.wgsl` (face renderer) -/

def saturate (x : α) : α := clampf x 0.0 1.0

def sd_segment (ops : GpuOps α) (p a b : Vec2 α) : α :=
  let pa := p - a
  let ba := b - a
  let h := saturate (dot2 pa ba / dot2 ba ba)
  length2 ops (pa - ba * h)

structure FaceParams (α : Type) where
  line_color : Vec3 α
  node_color : Vec3 α
  glow_color : Vec3 α
  pulse_speed : α
  float_amount : α
  particle_speed : α
  eye_scale : α
  eye_y_offset : α
  brow_angle : α
  mouth_smile : α
  mouth_open : α
  head_tilt : α

/-- The per-state parameter bank: the defaults (idle) mixed toward the
state-specific targets by `k` (the shader passes `u.intensity` for `k`). -/
def params_for_state (state : ℕ) (k : α) : FaceParams α :=
  let p : FaceParams α :=
    ⟨⟨0.1, 0.6, 0.8⟩, ⟨0.3, 0.8, 1.0⟩, ⟨0.0, 0.4, 0.6⟩,
      1.0, 1.0, 1.0, 1.0, 0.0, 0.0, 0.0, 0.0, 0.0⟩
  let t : FaceParams α :=
    if state = 1 then
      ⟨⟨0.1, 0.7, 0.9⟩, ⟨0.2, 0.9, 1.0⟩, ⟨0.0, 0.5, 0.7⟩,
        1.3, 1.0, 1.0, 1.15, 0.02, 0.5, 0.1, 0.2, 0.08⟩
    else if state = 2 then
      ⟨⟨0.4, 0.3, 0.9⟩, ⟨0.6, 0.4, 1.0⟩, ⟨0.3, 0.1, 0.6⟩,
        1.8, 0.6, 1.0, 0.8, 0.0, -0.3, -0.15, 0.0, 0.0⟩
    else if state = 3 then
      ⟨⟨0.1, 0.8, 0.6⟩, ⟨0.2, 1.0, 0.7⟩, ⟨0.0, 0.5, 0.4⟩,
        1.5, 1.0, 1.5, 0.7, -0.02, 0.3, 0.8, 0.15, -0.05⟩
    else if state = 4 then
      ⟨⟨1.0, 0.5, 0.2⟩, ⟨1.0, 0.7, 0.3⟩, ⟨0.6, 0.2, 0.0⟩,
        3.0, 1.5, 2.0, 1.4, 0.03, 0.8, -0.2, 0.5, 0.0⟩
    else if state = 5 then
      ⟨⟨0.15, 0.3, 0.5⟩, ⟨0.2, 0.4, 0.6⟩, ⟨0.05, 0.15, 0.25⟩,
        0.4, 0.4, 0.3, 0.4, -0.04, -0.2, -0.1, 0.0, 0.06⟩
    else p
  ⟨mix3 p.line_color t.line_color k, mix3 p.node_color t.node_color k,
    mix3 p.glow_color t.glow_color k, mixf p.pulse_speed t.pulse_speed k,
    mixf p.float_amount t.float_amount k, mixf p.particle_speed t.particle_speed k,
    mixf p.eye_scale t.eye_scale k, mixf p.eye_y_offset t.eye_y_offset k,
    mixf p.brow_angle t.brow_angle k, mixf p.mouth_smile t.mouth_smile k,
    mixf p.mouth_open t.mouth_open k, mixf p.head_tilt t.head_tilt k⟩

def face_mesh (ops : GpuOps α) (uv : Vec2 α) (fp : FaceParams α) (time : α) : α :=
  let tilt := fp.head_tilt + 0.02 * ops.sin (time * 0.5)
  let c := ops.cos tilt
  let s := ops.sin tilt
  let p : Vec2 α := ⟨c * uv.x - s * uv.y, s * uv.x + c * uv.y⟩
  let p : Vec2 α := ⟨p.x, p.y - 0.01 * ops.sin (time * fp.pulse_speed) * fp.float_amount⟩
  let line_w : α := 0.003
  let d : α := 1000.0
  let d := min d (sd_segment ops p ⟨0.0, 0.35⟩ ⟨0.15, 0.32⟩)
  let d := min d (sd_segment ops p ⟨0.15, 0.32⟩ ⟨0.25, 0.22⟩)
  let d := min d (sd_segment ops p ⟨0.25, 0.22⟩ ⟨0.28, 0.05⟩)
  let d := min d (sd_segment ops p ⟨0.28, 0.05⟩ ⟨0.25, -0.12⟩)
  let d := min d (sd_segment ops p ⟨0.25, -0.12⟩ ⟨0.18, -0.25⟩)
  let d := min d (sd_segment ops p ⟨0.18, -0.25⟩ ⟨0.08, -0.32⟩)
  let d := min d (sd_segment ops p ⟨0.08, -0.32⟩ ⟨0.0, -0.35⟩)
  let d := min d (sd_segment ops p ⟨0.0, -0.35⟩ ⟨-0.08, -0.32⟩)
  let d := min d (sd_segment ops p ⟨-0.08, -0.32⟩ ⟨-0.18, -0.25⟩)
  let d := min d (sd_segment ops p ⟨-0.18, -0.25⟩ ⟨-0.25, -0.12⟩)
  let d := min d (sd_segment ops p ⟨-0.25, -0.12⟩ ⟨-0.28, 0.05⟩)
  let d := min d (sd_segment ops p ⟨-0.28, 0.05⟩ ⟨-0.25, 0.22⟩)
  let d := min d (sd_segment ops p ⟨-0.25, 0.22⟩ ⟨-0.15, 0.32⟩)
  let d := min d (sd_segment ops p ⟨-0.15, 0.32⟩ ⟨0.0, 0.35⟩)
  let d := min d (sd_segment ops p ⟨-0.2, 0.2⟩ ⟨0.2, 0.2⟩)
  let d := min d (sd_segment ops p ⟨-0.15, 0.28⟩ ⟨0.15, 0.28⟩)
  let d := min d (sd_segment ops p ⟨-0.22, 0.0⟩ ⟨-0.1, -0.05⟩)
  let d := min d (sd_segment ops p ⟨0.22, 0.0⟩ ⟨0.1, -0.05⟩)
  let d := min d (sd_segment ops p ⟨-0.2, -0.15⟩ ⟨0.2, -0.15⟩)
  let d := min d (sd_segment ops p ⟨0.0, 0.12⟩ ⟨0.0, -0.08⟩)
  let d := min d (sd_segment ops p ⟨-0.04, -0.08⟩ ⟨0.04, -0.08⟩)
  let eye_y := 0.08 + fp.eye_y_offset
  let eye_h := 0.035 * fp.eye_scale
  let eye_w : α := 0.06
  let d := min d (sd_segment ops p ⟨-0.1 - eye_w, eye_y⟩ ⟨-0.1, eye_y + eye_h⟩)
  let d := min d (sd_segment ops p ⟨-0.1, eye_y + eye_h⟩ ⟨-0.1 + eye_w, eye_y⟩)
  let d := min d (sd_segment ops p ⟨-0.1 + eye_w, eye_y⟩ ⟨-0.1, eye_y - eye_h⟩)
  let d := min d (sd_segment ops p ⟨-0.1, eye_y - eye_h⟩ ⟨-0.1 - eye_w, eye_y⟩)
  let d := min d (sd_segment ops p ⟨0.1 - eye_w, eye_y⟩ ⟨0.1, eye_y + eye_h⟩)
  let d := min d (sd_segment ops p ⟨0.1, eye_y + eye_h⟩ ⟨0.1 + eye_w, eye_y⟩)
  let d := min d (sd_segment ops p ⟨0.1 + eye_w, eye_y⟩ ⟨0.1, eye_y - eye_h⟩)
  let d := min d (sd_segment ops p ⟨0.1, eye_y - eye_h⟩ ⟨0.1 - eye_w, eye_y⟩)
  let d := min d (sd_segment ops p ⟨-0.1 - eye_w, eye_y⟩ ⟨-0.22, 0.0⟩)
  let d := min d (sd_segment ops p ⟨0.1 + eye_w, eye_y⟩ ⟨0.22, 0.0⟩)
  let d := min d (sd_segment ops p ⟨-0.1, eye_y + eye_h⟩ ⟨-0.1, 0.2⟩)
  let d := min d (sd_segment ops p ⟨0.1, eye_y + eye_h⟩ ⟨0.1, 0.2⟩)
  let brow_y := 0.16 + fp.eye_y_offset
  let brow_in_y := brow_y - fp.brow_angle * 0.03
  let brow_out_y := brow_y + fp.brow_angle * 0.02
  let d := min d (sd_segment ops p ⟨-0.14, brow_out_y⟩ ⟨-0.05, brow_in_y⟩)
  let d := min d (sd_segment ops p ⟨0.05, brow_in_y⟩ ⟨0.14, brow_out_y⟩)
  let mouth_y : α := -0.2
  let mouth_w := 0.08 + fp.mouth_open * 0.02
  let smile := fp.mouth_smile * 0.04
  let open_amt := fp.mouth_open * 0.03
  let d := min d (sd_segment ops p ⟨-mouth_w, mouth_y + smile * 0.5⟩ ⟨0.0, mouth_y - 0.01⟩)
  let d := min d (sd_segment ops p ⟨0.0, mouth_y - 0.01⟩ ⟨mouth_w, mouth_y + smile * 0.5⟩)
  let low_y := mouth_y - open_amt
  let d := min d (sd_segment ops p ⟨-mouth_w, mouth_y + smile * 0.5⟩ ⟨-mouth_w * 0.5, low_y - smile⟩)
  let d := min d (sd_segment ops p ⟨-mouth_w * 0.5, low_y - smile⟩ ⟨0.0, low_y - smile * 0.5⟩)
  let d := min d (sd_segment ops p ⟨0.0, low_y - smile * 0.5⟩ ⟨mouth_w * 0.5, low_y - smile⟩)
  let d := min d (sd_segment ops p ⟨mouth_w * 0.5, low_y - smile⟩ ⟨mouth_w, mouth_y + smile * 0.5⟩)
  let d := min d (sd_segment ops p ⟨0.0, low_y - smile * 0.5 - 0.02⟩ ⟨0.0, -0.32⟩)
  d - line_w

def face_nodes (ops : GpuOps α) (uv : Vec2 α) (fp : FaceParams α) (time : α) : α :=
  let tilt := fp.head_tilt + 0.02 * ops.sin (time * 0.5)
  let c := ops.cos tilt
  let s := ops.sin tilt
  let p : Vec2 α := ⟨c * uv.x - s * uv.y, s * uv.x + c * uv.y⟩
  let p : Vec2 α := ⟨p.x, p.y - 0.01 * ops.sin (time * fp.pulse_speed) * fp.float_amount⟩
  let glow : α := 0.0
  let pulse := 0.5 + 0.5 * ops.sin (time * fp.pulse_speed * 2.0)
  let glow := max glow (ops.exp (-length2 ops (p - ⟨0.0, 0.35⟩) * 80.0))
  let glow := max glow (ops.exp (-length2 ops (p - ⟨0.15, 0.32⟩) * 80.0))
  let glow := max glow (ops.exp (-length2 ops (p - ⟨0.25, 0.22⟩) * 80.0))
  let glow := max glow (ops.exp (-length2 ops (p - ⟨0.28, 0.05⟩) * 80.0))
  let glow := max glow (ops.exp (-length2 ops (p - ⟨0.25, -0.12⟩) * 80.0))
  let glow := max glow (ops.exp (-length2 ops (p - ⟨0.18, -0.25⟩) * 80.0))
  let glow := max glow (ops.exp (-length2 ops (p - ⟨0.0, -0.35⟩) * 80.0))
  let glow := max glow (ops.exp (-length2 ops (p - ⟨-0.18, -0.25⟩) * 80.0))
  let glow := max glow (ops.exp (-length2 ops (p - ⟨-0.25, -0.12⟩) * 80.0))
  let glow := max glow (ops.exp (-length2 ops (p - ⟨-0.28, 0.05⟩) * 80.0))
  let glow := max glow (ops.exp (-length2 ops (p - ⟨-0.25, 0.22⟩) * 80.0))
  let glow := max glow (ops.exp (-length2 ops (p - ⟨-0.15, 0.32⟩) * 80.0))
  let eye_y := 0.08 + fp.eye_y_offset
  let eye_h := 0.035 * fp.eye_scale
  let glow := max glow (ops.exp (-length2 ops (p - ⟨-0.16, eye_y⟩) * 80.0))
  let glow := max glow (ops.exp (-length2 ops (p - ⟨-0.1, eye_y + eye_h⟩) * 80.0))
  let glow := max glow (ops.exp (-length2 ops (p - ⟨-0.04, eye_y⟩) * 80.0))
  let glow := max glow (ops.exp (-length2 ops (p - ⟨-0.1, eye_y - eye_h⟩) * 80.0))
  let glow := max glow (ops.exp (-length2 ops (p - ⟨0.04, eye_y⟩) * 80.0))
  let glow := max glow (ops.exp (-length2 ops (p - ⟨0.1, eye_y + eye_h⟩) * 80.0))
  let glow := max glow (ops.exp (-length2 ops (p - ⟨0.16, eye_y⟩) * 80.0))
  let glow := max glow (ops.exp (-length2 ops (p - ⟨0.1, eye_y - eye_h⟩) * 80.0))
  let brow_y := 0.16 + fp.eye_y_offset
  let glow := max glow (ops.exp (-length2 ops (p - ⟨-0.14, brow_y + fp.brow_angle * 0.02⟩) * 80.0))
  let glow := max glow (ops.exp (-length2 ops (p - ⟨-0.05, brow_y - fp.brow_angle * 0.03⟩) * 80.0))
  let glow := max glow (ops.exp (-length2 ops (p - ⟨0.05, brow_y - fp.brow_angle * 0.03⟩) * 80.0))
  let glow := max glow (ops.exp (-length2 ops (p - ⟨0.14, brow_y + fp.brow_angle * 0.02⟩) * 80.0))
  let smile := fp.mouth_smile * 0.02
  let glow := max glow (ops.exp (-length2 ops (p - ⟨-0.08, -0.2 + smile⟩) * 80.0))
  let glow := max glow (ops.exp (-length2 ops (p - ⟨0.08, -0.2 + smile⟩) * 80.0))
  let glow := max glow (ops.exp (-length2 ops (p - ⟨0.0, -0.21⟩) * 80.0))
  glow * (0.7 + 0.3 * pulse)

def particles (ops : GpuOps α) (uv : Vec2 α) (fp : FaceParams α) (time : α) : α :=
  (List.range 20).foldl (fun glow i =>
    let fi := (i : α)
    let rnd_x := fract (ops.sin (fi * 12.9898) * 43758.5453)
    let rnd_y := fract (ops.sin (fi * 78.233) * 43758.5453)
    let angle := rnd_x * 6.28 + time * fp.particle_speed * (0.3 + rnd_y * 0.4)
    let radius := 0.35 + rnd_y * 0.25
    let height := (rnd_x - 0.5) * 0.6
    let pos : Vec2 α :=
      ⟨ops.cos angle * radius, height + ops.sin (angle * 2.0 + time * fp.particle_speed) * 0.05⟩
    let drift := ops.sin (time * 0.5 + fi) * 0.1 * fp.float_amount
    let pos := pos * (1.0 + drift * 0.3)
    let dist := length2 ops (uv - pos)
    let size := 0.003 + rnd_y * 0.004
    let brightness := 0.3 + 0.4 * ops.sin (time * 2.0 + fi * 0.5)
    glow + ops.exp (-dist / size) * brightness * 0.12) 0.0

def particle_connections (ops : GpuOps α) (uv : Vec2 α) (fp : FaceParams α) (time : α) : α :=
  (List.range 10).foldl (fun line_glow i =>
    let fi := (i : α)
    let rnd_x := fract (ops.sin (fi * 23.456) * 43758.5453)
    let rnd_y := fract (ops.sin (fi * 67.89) * 43758.5453)
    let angle := rnd_x * 6.28 + time * fp.particle_speed * 0.2
    let radius := 0.4 + rnd_y * 0.2
    let outer : Vec2 α := ⟨ops.cos angle * radius, (rnd_x - 0.5) * 0.5⟩
    let inner_angle := angle + 0.2
    let inner : Vec2 α := ⟨ops.cos inner_angle * 0.28, ops.sin inner_angle * 0.2⟩
    let vis := wstep 0.6 (ops.sin (time * 1.5 + fi * 0.7))
    let dist := sd_segment ops uv inner outer
    line_glow + ops.exp (-dist * 200.0) * 0.08 * vis) 0.0

def render (ops : GpuOps α) (px res : Vec2 α) (time : α) (fp : FaceParams α) : Vec3 α :=
  let uv := (px - res * (0.5 : α)) / res.y
  let col : Vec3 α := ⟨0.01, 0.02, 0.04⟩
  let col := col + (⟨0.01, 0.02, 0.03⟩ : Vec3 α) * (1.0 - length2 ops uv * 0.8)
  let bg_glow := ops.exp (-length2 ops uv * 2.5) * 0.15
  let col := col + fp.glow_color * bg_glow
  let face_d := face_mesh ops uv fp time
  let face_line := ops.exp (-max 0.0 face_d * 150.0)
  let nodes := face_nodes ops uv fp time
  let parts := particles ops uv fp time
  let connections := particle_connections ops uv fp time
  let col := col + fp.line_color * face_line * (0.8 : α)
  let col := col + fp.node_color * nodes
  let col := col + fp.node_color * parts
  let col := col + fp.line_color * connections * (0.5 : α)
  let face_fill : α := smoothstepf 0.3 0.0 (length2 ops uv) * 0.05
  let col : Vec3 α := col + fp.glow_color * face_fill
  let scan := 0.98 + 0.02 * ops.sin (px.y * 2.0)
  let col := col * scan
  let vign := 1.0 - length2 ops uv * 0.5
  let col := col * vign
  clamp3 col (Vec3.splat 0.0) (Vec3.splat 1.0)

def fs_main (ops : GpuOps α) (u : EUniforms α) (px : Vec2 α) : Vec4 α :=
  let time := u.time
  let blend := saturate u.blend_factor
  let fp_cur := params_for_state (α := α) u.current_state u.intensity
  let fp_tgt := params_for_state (α := α) u.target_state u.intensity
  if blend ≤ 0.001 ∨ u.current_state = u.target_state then
    Vec4.ofV3 (render ops px u.resolution time fp_cur) 1
  else if 0.999 ≤ blend then
    Vec4.ofV3 (render ops px u.resolution time fp_tgt) 1
  else
    let col_a := render ops px u.resolution time fp_cur
    let col_b := render ops px u.resolution time fp_tgt
    Vec4.ofV3 (mix3 col_a col_b blend) 1

end Entity

/-- C5: when a transition is in progress (`0.001 < blend_factor < 0.999` and
the modes differ), the rendered pixel is exactly the componentwise linear
interpolation of the two full single-mode renders at `blend_factor`; at
`blend_factor = 1/2` this is the midpoint of the two colors. -/
theorem C5_transition_output_is_lerp (ops : GpuOps α) (u : EUniforms α) (px : Vec2 α)
    (h1 : (0.001 : α) < u.blend_factor) (h2 : u.blend_factor < 0.999)
    (hne : u.current_state ≠ u.target_state) :
    Entity.fs_main ops u px =
      Vec4.ofV3
        (mix3
          (Entity.render ops px u.resolution u.time
            (Entity.params_for_state u.current_state u.intensity))
          (Entity.render ops px u.resolution u.time
            (Entity.params_for_state u.target_state u.intensity))
          u.blend_factor) 1 := by
  have h0 : (0 : α) ≤ u.blend_factor := le_of_lt (lt_trans (by norm_num) h1)
  have hle1 : u.blend_factor ≤ 1 := le_of_lt (lt_trans h2 (by norm_num))
  have hsat : Entity.saturate u.blend_factor = u.blend_factor := by
    simp only [Entity.saturate, clampf]
    rw [show (0.0 : α) = 0 by norm_num, show (1.0 : α) = 1 by norm_num,
      max_eq_left h0, min_eq_left hle1]
  have hc1 : ¬(u.blend_factor ≤ (0.001 : α) ∨ u.current_state = u.target_state) := by
    push_neg
    exact ⟨h1, hne⟩
  have hc2 : ¬((0.999 : α) ≤ u.blend_factor) := not_le.mpr h2
  simp only [Entity.fs_main, hsat, if_neg hc1, if_neg hc2]

/-- Uniforms mid-transition: `blend_factor = 1/2`, modes `idle → alert`. -/
def euMid : EUniforms α := ⟨0, 1, 0.5, 0, 4, ⟨4, 4⟩⟩

theorem C5_transition_output_is_lerp_witness :
    ((0.001 : ℚ) < (euMid : EUniforms ℚ).blend_factor
      ∧ (euMid : EUniforms ℚ).blend_factor < 0.999
      ∧ (euMid : EUniforms ℚ).current_state ≠ (euMid : EUniforms ℚ).target_state)
    ∧ Entity.fs_main (zeroOps : GpuOps ℚ) euMid ⟨1, 2⟩ =
      Vec4.ofV3
        (mix3
          (Entity.render zeroOps ⟨1, 2⟩ (euMid : EUniforms ℚ).resolution
            (euMid : EUniforms ℚ).time
            (Entity.params_for_state (euMid : EUniforms ℚ).current_state
              (euMid : EUniforms ℚ).intensity))
          (Entity.render zeroOps ⟨1, 2⟩ (euMid : EUniforms ℚ).resolution
            (euMid : EUniforms ℚ).time
            (Entity.params_for_state (euMid : EUniforms ℚ).target_state
              (euMid : EUniforms ℚ).intensity))
          (euMid : EUniforms ℚ).blend_factor) 1 :=
  ⟨⟨by norm_num [euMid], by norm_num [euMid], by decide⟩,
    C5_transition_output_is_lerp zeroOps euMid ⟨1, 2⟩ (by norm_num [euMid])
      (by norm_num [euMid]) (by decide)⟩

/-- C6: at the blend boundaries the output is exactly a single-mode render,
with no blending: if the modes coincide or `blend_factor ≤ 0.001` the pixel
is exactly the current-mode render (regardless of any stale blend factor),
and if `blend_factor ≥ 0.999` it is exactly the target-mode render. -/
theorem C6_boundary_blend_is_exact_single_mode (ops : GpuOps α) (u : EUniforms α)
    (px : Vec2 α) :
    ((u.current_state = u.target_state ∨ u.blend_factor ≤ (0.001 : α)) →
      Entity.fs_main ops u px =
        Vec4.ofV3 (Entity.render ops px u.resolution u.time
          (Entity.params_for_state u.current_state u.intensity)) 1)
    ∧ ((0.999 : α) ≤ u.blend_factor →
      Entity.fs_main ops u px =
        Vec4.ofV3 (Entity.render ops px u.resolution u.time
          (Entity.params_for_state u.target_state u.intensity)) 1) := by
  constructor
  · intro h
    have hcond : Entity.saturate u.blend_factor ≤ (0.001 : α)
        ∨ u.current_state = u.target_state := by
      rcases h with h | h
      · exact Or.inr h
      · refine Or.inl ?_
        simp only [Entity.saturate, clampf]
        exact le_trans (min_le_left _ _) (max_le h (by norm_num))
    simp only [Entity.fs_main, if_pos hcond]
  · intro h
    by_cases he : u.current_state = u.target_state
    · simp only [Entity.fs_main, he, or_true, if_true]
    · have hsatge : (0.999 : α) ≤ Entity.saturate u.blend_factor := by
        simp only [Entity.saturate, clampf]
        exact le_min (le_trans h (le_max_left _ _)) (by norm_num)
      have hcond : ¬(Entity.saturate u.blend_factor ≤ (0.001 : α)
          ∨ u.current_state = u.target_state) := by
        push_neg
        exact ⟨lt_of_lt_of_le (by norm_num) hsatge, he⟩
      simp only [Entity.fs_main, if_neg hcond, if_pos hsatge]

/-- Uniforms at rest in mode 2 with a stale mid-transition blend factor. -/
def euSame : EUniforms α := ⟨0, 1, 0.7, 2, 2, ⟨4, 4⟩⟩

theorem C6_boundary_blend_is_exact_single_mode_witness :
    ((euSame : EUniforms ℚ).current_state = (euSame : EUniforms ℚ).target_state)
    ∧ Entity.fs_main (zeroOps : GpuOps ℚ) euSame ⟨1, 2⟩ =
      Vec4.ofV3
        (Entity.render zeroOps ⟨1, 2⟩ (euSame : EUniforms ℚ).resolution
          (euSame : EUniforms ℚ).time
          (Entity.params_for_state (euSame : EUniforms ℚ).current_state
            (euSame : EUniforms ℚ).intensity)) 1 :=
  ⟨rfl, (C6_boundary_blend_is_exact_single_mode zeroOps euSame ⟨1, 2⟩).1 (Or.inl rfl)⟩

namespace Observer

/-! ## The observer state machine (`src/observer/src/state.ts`) -/

inductive Activity where
  | coding
  | browsing
  | media
  | chat
  | gaming
  | idle
  | error
  | other
deriving DecidableEq

inductive Mood where
  | focused
  | relaxed
  | frustrated
  | entertained
  | neutral
deriving DecidableEq

inductive EntityState where
  | idle
  | curious
  | focused
  | amused
  | alert
  | sleepy
deriving DecidableEq

structure ScreenAnalysis where
  activity : Activity
  mood : Mood
  hasErrors : Bool
  confidence : ℚ
deriving DecidableEq

structure StateUpdate where
  state : EntityState
  intensity : ℚ
  timestamp : ℤ
deriving DecidableEq

/-- The closure state of `createStateMachine`. -/
structure MachineState where
  state : EntityState
  pendingState : Option EntityState
  pendingCycles : ℕ
  idleSince : Option ℤ
deriving DecidableEq

def SLEEPY_AFTER_MS : ℤ := 60000

/-- The `idleSince ??= now` / `idleSince = null` mutation at the top of
`mapToEntityState` (`??=` keeps an existing value, including `0`). -/
def updateIdleSince (idleSince : Option ℤ) (a : ScreenAnalysis) (now : ℤ) : Option ℤ :=
  if a.activity = Activity.idle then some (idleSince.getD now) else none

/-- Function `mapToEntityState`, applied to the already-updated `idleSince`.  The JS
truthiness test `idleSince ? now - idleSince : 0` treats a stored timestamp
of `0` as falsy; the embedding reproduces that. -/
def mapToEntityState (idleS : Option ℤ) (a : ScreenAnalysis) (now : ℤ) : EntityState :=
  if a.hasErrors then EntityState.alert
  else if a.activity = Activity.coding ∧ a.mood = Mood.frustrated then EntityState.alert
  else if (a.activity = Activity.coding ∨ a.activity = Activity.error)
      ∧ a.mood = Mood.focused then EntityState.focused
  else if (a.activity = Activity.media ∨ a.activity = Activity.gaming)
      ∧ a.mood = Mood.entertained then EntityState.amused
  else if a.activity = Activity.idle then
    let idleFor : ℤ :=
      match idleS with
      | some ts => if ts = 0 then 0 else now - ts
      | none => 0
    if SLEEPY_AFTER_MS ≤ idleFor then EntityState.sleepy else EntityState.idle
  else if a.activity = Activity.browsing ∨ a.activity = Activity.chat then EntityState.curious
  else EntityState.idle

/-- JS `Math.max(0, Math.min(1, x))` (the vlm module's `clamp01`; `state.ts`
inlines the same expression for the intensity). -/
def clamp01 (x : ℚ) : ℚ := max 0 (min 1 x)

/-- The target state one `updateFromAnalysis` call maps its analysis to. -/
def targetOf (s : MachineState) (a : ScreenAnalysis) (now : ℤ) : EntityState :=
  mapToEntityState (updateIdleSince s.idleSince a now) a now

/-- One `updateFromAnalysis` call: the mutated closure state (anti-jitter:
a differing target must persist for 2 cycles before it is committed). -/
def stepMachine (s : MachineState) (a : ScreenAnalysis) (now : ℤ) : MachineState :=
  let idleS := updateIdleSince s.idleSince a now
  let target := mapToEntityState idleS a now
  if target = s.state then
    { state := s.state, pendingState := none, pendingCycles := 0, idleSince := idleS }
  else
    let p := if s.pendingState = some target then (s.pendingState, s.pendingCycles + 1)
      else (some target, 1)
    if 2 ≤ p.2 then
      { state := target, pendingState := none, pendingCycles := 0, idleSince := idleS }
    else
      { state := s.state, pendingState := p.1, pendingCycles := p.2, idleSince := idleS }

/-- The `StateUpdate` record returned by `updateFromAnalysis` (the `state`
field is read after the mutation, hence equals the new `getState()`). -/
def stepUpdate (s : MachineState) (a : ScreenAnalysis) (now : ℤ) : StateUpdate :=
  { state := (stepMachine s a now).state, intensity := clamp01 a.confidence, timestamp := now }

/-- The initial closure state of `createStateMachine(initialState)`. -/
def initMachine (initialState : EntityState) : MachineState :=
  { state := initialState, pendingState := none, pendingCycles := 0, idleSince := none }

/-- Feeding a sequence of analyses to `updateFromAnalysis`. -/
def runMachine (s : MachineState) (l : List (ScreenAnalysis × ℤ)) : MachineState :=
  l.foldl (fun s p => stepMachine s p.1 p.2) s

end Observer

theorem Observer.runMachine_concat (s : Observer.MachineState)
    (l : List (Observer.ScreenAnalysis × ℤ)) (p : Observer.ScreenAnalysis × ℤ) :
    Observer.runMachine s (l ++ [p])
      = Observer.stepMachine (Observer.runMachine s l) p.1 p.2 := by
  simp [Observer.runMachine, List.foldl_append]

/-- After any step, the pending slot is either clear, or holds exactly the
target of that step, with one pending cycle and an unchanged visible state. -/
theorem Observer.stepMachine_pending (s : Observer.MachineState)
    (a : Observer.ScreenAnalysis) (now : ℤ) :
    (Observer.stepMachine s a now).pendingState = none
    ∨ ((Observer.stepMachine s a now).pendingState = some (Observer.targetOf s a now)
        ∧ (Observer.stepMachine s a now).pendingCycles = 1
        ∧ (Observer.stepMachine s a now).state = s.state
        ∧ Observer.targetOf s a now ≠ s.state) := by
  simp only [Observer.stepMachine, Observer.targetOf]
  split_ifs with h1 h2 h3 <;> simp_all

/-- If a run from a pending-free start ends with a pending target `T`, the
last input of the run mapped to `T`, and that step left the visible state
unchanged with a single pending cycle. -/
theorem Observer.runMachine_pending_provenance (s0 : Observer.MachineState)
    (h0 : s0.pendingState = none) (l : List (Observer.ScreenAnalysis × ℤ))
    (T : Observer.EntityState) (h : (Observer.runMachine s0 l).pendingState = some T) :
    ∃ l' b tb, l = l' ++ [(b, tb)]
      ∧ Observer.targetOf (Observer.runMachine s0 l') b tb = T
      ∧ (Observer.runMachine s0 l).pendingCycles = 1
      ∧ (Observer.runMachine s0 l).state = (Observer.runMachine s0 l').state
      ∧ T ≠ (Observer.runMachine s0 l').state := by
  rcases List.eq_nil_or_concat l with rfl | ⟨l', p, rfl⟩
  · rw [show Observer.runMachine s0 [] = s0 from rfl] at h
    rw [h0] at h
    exact absurd h (by simp)
  · obtain ⟨b, tb⟩ := p
    rw [List.concat_eq_append] at h ⊢
    rw [Observer.runMachine_concat] at h
    rcases Observer.stepMachine_pending (Observer.runMachine s0 l') b tb with hn | ⟨hp, hc, hs, hne⟩
    · rw [hn] at h
      exact absurd h (by simp)
    · rw [hp] at h
      have hT : Observer.targetOf (Observer.runMachine s0 l') b tb = T := by
        injection h
      exact ⟨l', b, tb, rfl, hT, by rw [Observer.runMachine_concat]; exact hc,
        by rw [Observer.runMachine_concat]; exact hs, hT ▸ hne⟩

/-- A step that changes the visible state commits exactly the pending target,
which is the step's own target. -/
theorem Observer.stepMachine_state_change (s : Observer.MachineState)
    (a : Observer.ScreenAnalysis) (now : ℤ)
    (h : (Observer.stepMachine s a now).state ≠ s.state) :
    (Observer.stepMachine s a now).state = Observer.targetOf s a now
    ∧ s.pendingState = some (Observer.targetOf s a now)
    ∧ Observer.targetOf s a now ≠ s.state := by
  simp only [Observer.stepMachine, Observer.targetOf] at h ⊢
  split_ifs at h ⊢ with h1 h2 h3 <;> simp_all

/-- C9: anti-jitter hysteresis of the observer state machine.  Over any run
from `createStateMachine(init)`: (i) a step changes the visible state only
to its own target, and only when the immediately preceding analysis mapped
to that same (different) target while the visible state stayed put — i.e.
only after two consecutive analyses mapped to the same new state; a single
analysis mapping to a different state never changes the visible state.
(ii) an analysis mapping back to the current state resets the pending
counter and leaves the state unchanged. -/
theorem C9_state_changes_need_two_consecutive_targets (init : Observer.EntityState)
    (pre : List (Observer.ScreenAnalysis × ℤ)) (a : Observer.ScreenAnalysis) (now : ℤ) :
    ((Observer.stepMachine (Observer.runMachine (Observer.initMachine init) pre) a now).state
        ≠ (Observer.runMachine (Observer.initMachine init) pre).state →
      (Observer.stepMachine (Observer.runMachine (Observer.initMachine init) pre) a now).state
          = Observer.targetOf (Observer.runMachine (Observer.initMachine init) pre) a now
        ∧ ∃ pre' b tb, pre = pre' ++ [(b, tb)]
            ∧ Observer.targetOf (Observer.runMachine (Observer.initMachine init) pre') b tb
              = Observer.targetOf (Observer.runMachine (Observer.initMachine init) pre) a now
            ∧ (Observer.runMachine (Observer.initMachine init) pre).state
              = (Observer.runMachine (Observer.initMachine init) pre').state
            ∧ Observer.targetOf (Observer.runMachine (Observer.initMachine init) pre) a now
              ≠ (Observer.runMachine (Observer.initMachine init) pre).state)
    ∧ (Observer.targetOf (Observer.runMachine (Observer.initMachine init) pre) a now
        = (Observer.runMachine (Observer.initMachine init) pre).state →
      (Observer.stepMachine (Observer.runMachine (Observer.initMachine init) pre) a now).state
          = (Observer.runMachine (Observer.initMachine init) pre).state
        ∧ (Observer.stepMachine (Observer.runMachine (Observer.initMachine init) pre) a now).pendingState
          = none
        ∧ (Observer.stepMachine (Observer.runMachine (Observer.initMachine init) pre) a now).pendingCycles
          = 0) := by
  constructor
  · intro h
    obtain ⟨hst, hpend, hne⟩ :=
      Observer.stepMachine_state_change (Observer.runMachine (Observer.initMachine init) pre) a now h
    obtain ⟨pre', b, tb, rfl, hT, hcyc, hsame, hTne⟩ :=
      Observer.runMachine_pending_provenance (Observer.initMachine init) rfl pre _ hpend
    exact ⟨hst, pre', b, tb, rfl, hT, hsame, hne⟩
  · intro h
    have h' : Observer.mapToEntityState
        (Observer.updateIdleSince
          (Observer.runMachine (Observer.initMachine init) pre).idleSince a now) a now
        = (Observer.runMachine (Observer.initMachine init) pre).state := h
    simp only [Observer.stepMachine, if_pos h']
    exact ⟨trivial, trivial, trivial⟩

/-- An analysis that maps to `alert` (explicit errors on screen). -/
def aAlert : Observer.ScreenAnalysis := ⟨Observer.Activity.other, Observer.Mood.neutral, true, 1⟩

theorem C9_state_changes_need_two_consecutive_targets_witness :
    ((Observer.stepMachine (Observer.runMachine (Observer.initMachine Observer.EntityState.idle)
          [(aAlert, 0)]) aAlert 1).state
        ≠ (Observer.runMachine (Observer.initMachine Observer.EntityState.idle) [(aAlert, 0)]).state)
    ∧ ((Observer.stepMachine (Observer.runMachine (Observer.initMachine Observer.EntityState.idle)
          [(aAlert, 0)]) aAlert 1).state
          = Observer.targetOf (Observer.runMachine (Observer.initMachine Observer.EntityState.idle)
              [(aAlert, 0)]) aAlert 1
        ∧ ∃ pre' b tb, [(aAlert, (0 : ℤ))] = pre' ++ [(b, tb)]
            ∧ Observer.targetOf (Observer.runMachine (Observer.initMachine Observer.EntityState.idle) pre') b tb
              = Observer.targetOf (Observer.runMachine (Observer.initMachine Observer.EntityState.idle)
                  [(aAlert, 0)]) aAlert 1
            ∧ (Observer.runMachine (Observer.initMachine Observer.EntityState.idle) [(aAlert, 0)]).state
              = (Observer.runMachine (Observer.initMachine Observer.EntityState.idle) pre').state
            ∧ Observer.targetOf (Observer.runMachine (Observer.initMachine Observer.EntityState.idle)
                [(aAlert, 0)]) aAlert 1
              ≠ (Observer.runMachine (Observer.initMachine Observer.EntityState.idle) [(aAlert, 0)]).state) :=
  ⟨by decide,
    (C9_state_changes_need_two_consecutive_targets Observer.EntityState.idle [(aAlert, 0)] aAlert 1).1
      (by decide)⟩

namespace Observer

/-! ## `analyzeScreen` (`src/observer/src/vlm.ts`).
The network call is modelled by a datatype of its possible outcomes; the
platform builtins `JSON.parse` and `Number(...)` are parameters (`parse`,
`toNumber`), since their implementations live outside the repository. -/

inductive Json where
  | null : Json
  | bool : Bool → Json
  | num : ℚ → Json
  | str : String → Json
  | arr : List Json → Json
  | obj : List (String × Json) → Json

/-- JS property access `v.key` on a parsed JSON value: a key lookup on an
object, `undefined` (`none`) otherwise. -/
def jGet : Json → String → Option Json
  | Json.obj fields, key => (fields.find? (fun q => q.1 = key)).map Prod.snd
  | _, _ => none

/-- JS indexing `v[i]`: array element, object property `"i"`, or
`undefined`. -/
def jIndex : Json → ℕ → Option Json
  | Json.arr xs, i => xs.get? i
  | Json.obj fields, i => (fields.find? (fun q => q.1 = toString i)).map Prod.snd
  | _, _ => none

/-- The optional chain `payload?.choices?.[0]?.message?.content`, then the
`typeof content === "string"` check. -/
def contentOf (payload : Option Json) : Option String :=
  match payload with
  | none => none
  | some p =>
    match jGet p "choices" with
    | none => none
    | some c =>
      match jIndex c 0 with
      | none => none
      | some c0 =>
        match jGet c0 "message" with
        | none => none
        | some m =>
          match jGet m "content" with
          | some (Json.str s) => some s
          | _ => none

/-- The inner scan of `extractJson`, from a position where `{` was found:
walk the characters tracking brace depth and string/escape state; when the
depth returns to zero the candidate is returned if `JSON.parse` accepts it,
otherwise this start position is abandoned (the `break`). -/
def scanFrom (parse : String → Option Json) :
    List Char → ℕ → Bool → Bool → List Char → Option String
  | [], _, _, _, _ => none
  | ch :: rest, depth, inString, escaped, acc =>
    let acc' := acc ++ [ch]
    if inString then
      if escaped then scanFrom parse rest depth inString false acc'
      else if ch = Char.ofNat 92 then scanFrom parse rest depth inString true acc'
      else if ch = Char.ofNat 34 then scanFrom parse rest depth false false acc'
      else scanFrom parse rest depth inString false acc'
    else if ch = Char.ofNat 34 then scanFrom parse rest depth true false acc'
    else
      let depth1 := if ch = Char.ofNat 123 then depth + 1 else depth
      let depth2 := if ch = Char.ofNat 125 then depth1 - 1 else depth1
      if depth2 = 0 then
        let candidate := String.mk acc'
        if (parse candidate).isSome then some candidate else none
      else scanFrom parse rest depth2 inString false acc'

/-- The outer loop of `extractJson`: try each `{` as a start position. -/
def extractJsonFrom (parse : String → Option Json) : List Char → Option String
  | [] => none
  | ch :: rest =>
    if ch = Char.ofNat 123 then
      match scanFrom parse (ch :: rest) 0 false false [] with
      | some c => some c
      | none => extractJsonFrom parse rest
    else extractJsonFrom parse rest

/-- Function `extractJson` of `src/observer/src/vlm.ts`: trim, then scan for the
first balanced, parseable `{...}` block. -/
def extractJson (parse : String → Option Json) (text : String) : Option String :=
  extractJsonFrom parse text.trim.data

def normalizeActivity (value : Option Json) : Activity :=
  match value with
  | some (Json.str s) =>
    let raw := s.trim.toLower
    if raw = "coding" then Activity.coding
    else if raw = "browsing" then Activity.browsing
    else if raw = "media" then Activity.media
    else if raw = "chat" then Activity.chat
    else if raw = "gaming" then Activity.gaming
    else if raw = "idle" then Activity.idle
    else if raw = "error" then Activity.error
    else if raw = "other" then Activity.other
    else Activity.other
  | _ => Activity.other

def normalizeMood (value : Option Json) : Mood :=
  match value with
  | some (Json.str s) =>
    let raw := s.trim.toLower
    if raw = "focused" then Mood.focused
    else if raw = "relaxed" then Mood.relaxed
    else if raw = "frustrated" then Mood.frustrated
    else if raw = "entertained" then Mood.entertained
    else if raw = "neutral" then Mood.neutral
    else Mood.neutral
  | _ => Mood.neutral

/-- Function `normalizeHasErrors`: booleans pass through, strings compare to
`"true"`, anything else goes through JS `Boolean(...)`. -/
def normalizeHasErrors (value : Option Json) : Bool :=
  match value with
  | some (Json.bool b) => b
  | some (Json.str s) => s.trim.toLower = "true"
  | none => false
  | some Json.null => false
  | some (Json.num q) => decide (q ≠ 0)
  | some (Json.arr _) => true
  | some (Json.obj _) => true

/-- Function `normalizeConfidence`: numbers are clamped, anything else is coerced by
`Number(...)` (`toNumber`; `none` models a non-finite result, which
`clamp01`'s `Number.isFinite` guard sends to `0`). -/
def normalizeConfidence (toNumber : Option Json → Option ℚ) (value : Option Json) : ℚ :=
  match value with
  | some (Json.num q) => clamp01 q
  | v =>
    match toNumber v with
    | none => 0
    | some q => clamp01 q

def errorAnalysis : ScreenAnalysis :=
  ⟨Activity.error, Mood.neutral, true, 0⟩

/-- The possible outcomes of the `fetch` call inside `analyzeScreen`:
a thrown error (transport failure, abort/timeout, encoding failure), or an
HTTP response with its `ok` flag and the JSON body (`none` when
`response.json()` failed and the `.catch(() => null)` yielded `null`). -/
inductive VlmOutcome where
  | thrown : String → VlmOutcome
  | response : Bool → Option Json → VlmOutcome

/-- Function `analyzeScreen`: total on every outcome; all throw-paths are caught by
the surrounding `try`/`catch` and produce `errorAnalysis`. -/
def analyzeScreen (parse : String → Option Json) (toNumber : Option Json → Option ℚ) :
    VlmOutcome → ScreenAnalysis
  | VlmOutcome.thrown _ => errorAnalysis
  | VlmOutcome.response ok body =>
    if !ok then errorAnalysis
    else
      match contentOf body with
      | none => errorAnalysis
      | some content =>
        match extractJson parse content with
        | none => errorAnalysis
        | some jsonText =>
          match parse jsonText with
          | none => errorAnalysis
          | some parsed =>
            { activity := normalizeActivity (jGet parsed "activity")
              mood := normalizeMood (jGet parsed "mood")
              hasErrors := normalizeHasErrors (jGet parsed "hasErrors")
              confidence := normalizeConfidence toNumber (jGet parsed "confidence") }

end Observer

theorem Observer.clamp01_mem (x : ℚ) : 0 ≤ Observer.clamp01 x ∧ Observer.clamp01 x ≤ 1 := by
  unfold Observer.clamp01
  constructor
  · exact le_max_left 0 _
  · exact max_le (by norm_num) (min_le_left 1 x)

theorem Observer.normalizeConfidence_mem (toNumber : Option Observer.Json → Option ℚ)
    (v : Option Observer.Json) :
    0 ≤ Observer.normalizeConfidence toNumber v
      ∧ Observer.normalizeConfidence toNumber v ≤ 1 := by
  unfold Observer.normalizeConfidence
  rcases v with _ | j
  · cases h : toNumber none <;> simp [h, Observer.clamp01_mem]
  · cases j with
    | num q => exact Observer.clamp01_mem q
    | null => cases h : toNumber (some Observer.Json.null) <;> simp [h, Observer.clamp01_mem]
    | bool b =>
      cases h : toNumber (some (Observer.Json.bool b)) <;> simp [h, Observer.clamp01_mem]
    | str s =>
      cases h : toNumber (some (Observer.Json.str s)) <;> simp [h, Observer.clamp01_mem]
    | arr xs =>
      cases h : toNumber (some (Observer.Json.arr xs)) <;> simp [h, Observer.clamp01_mem]
    | obj fs =>
      cases h : toNumber (some (Observer.Json.obj fs)) <;> simp [h, Observer.clamp01_mem]

/-- C10: `analyzeScreen` is total and normalized: for every transport/HTTP/
JSON outcome and every behaviour of the platform `JSON.parse` and
`Number(...)`, it returns a `ScreenAnalysis` (the `Activity` and `Mood`
types contain exactly the eight and five allowed values) whose confidence
lies in `[0, 1]`; and on every failure path — a thrown error, a non-OK
response, missing assistant string content, or no parseable JSON object in
the content — the result is exactly
`{activity: error, mood: neutral, hasErrors: true, confidence: 0}`. -/
theorem C10_analyzeScreen_total_and_normalized (parse : String → Option Observer.Json)
    (toNumber : Option Observer.Json → Option ℚ) (o : Observer.VlmOutcome) :
    (0 ≤ (Observer.analyzeScreen parse toNumber o).confidence
      ∧ (Observer.analyzeScreen parse toNumber o).confidence ≤ 1)
    ∧ (∀ msg, o = Observer.VlmOutcome.thrown msg →
        Observer.analyzeScreen parse toNumber o = Observer.errorAnalysis)
    ∧ (∀ body, o = Observer.VlmOutcome.response false body →
        Observer.analyzeScreen parse toNumber o = Observer.errorAnalysis)
    ∧ (∀ ok body, o = Observer.VlmOutcome.response ok body → Observer.contentOf body = none →
        Observer.analyzeScreen parse toNumber o = Observer.errorAnalysis)
    ∧ (∀ ok body content, o = Observer.VlmOutcome.response ok body →
        Observer.contentOf body = some content → Observer.extractJson parse content = none →
        Observer.analyzeScreen parse toNumber o = Observer.errorAnalysis) := by
  refine ⟨?_, ?_, ?_, ?_, ?_⟩
  · rcases o with msg | ⟨ok, body⟩
    · simp [Observer.analyzeScreen, Observer.errorAnalysis]
    · rcases ok with _ | _
      · simp [Observer.analyzeScreen, Observer.errorAnalysis]
      · simp only [Observer.analyzeScreen, Bool.not_true]
        rcases hc : Observer.contentOf body with _ | content
        · simp [hc, Observer.errorAnalysis]
        · rcases he : Observer.extractJson parse content with _ | jsonText
          · simp [hc, he, Observer.errorAnalysis]
          · rcases hp : parse jsonText with _ | parsed
            · simp [hc, he, hp, Observer.errorAnalysis]
            · simp [hc, he, hp, Observer.normalizeConfidence_mem]
  · rintro msg rfl
    rfl
  · rintro body rfl
    rfl
  · rintro ok body rfl hc
    rcases ok with _ | _
    · rfl
    · simp [Observer.analyzeScreen, hc]
  · rintro ok body content rfl hc he
    rcases ok with _ | _
    · rfl
    · simp [Observer.analyzeScreen, hc, he]

theorem C10_analyzeScreen_total_and_normalized_witness :
    ((Observer.VlmOutcome.thrown "network failure" : Observer.VlmOutcome)
        = Observer.VlmOutcome.thrown "network failure")
    ∧ Observer.analyzeScreen (fun _ => none) (fun _ => none)
        (Observer.VlmOutcome.thrown "network failure") = Observer.errorAnalysis :=
  ⟨rfl,
    (C10_analyzeScreen_total_and_normalized (fun _ => none) (fun _ => none)
        (Observer.VlmOutcome.thrown "network failure")).2.1 "network failure" rfl⟩
